import Mathlib

/-!
# clicklock: a shallow embedding of `clicklock.c`

The program talks to an X server.  Everything the X server and the C library
decide (grab results, pixel values, resource identifiers, events, `malloc`,
`fork`) is read from an environment `Env`; everything the program changes is
kept in a `World`: the global `running`, the resources this client holds on the
server, and the sequence of library calls it has issued.

The functions `waitforevent`, `unlockscreen`, `lockscreen` and `main` follow
`clicklock.c` statement by statement.
-/

namespace Clicklock

/-! ## Constants of `X.h` and of `clicklock.c` -/

/-- Value of `GrabSuccess` in `X.h`. -/
def GrabSuccess : Int := 0

/-- Value of `KeyPress` in `X.h`. -/
def KeyPress : Int := 2

/-- Value of `ButtonPress` in `X.h`. -/
def ButtonPress : Int := 4

/-- First member of the colour enum. -/
def INIT : Nat := 0

/-- Second member of the colour enum. -/
def INPUT : Nat := 1

/-- Third member of the colour enum. -/
def FAILED : Nat := 2

/-- Last member of the colour enum: the number of colours. -/
def NUMCOLS : Nat := 3

/-- The table `colorname[NUMCOLS]`. -/
def colorname : List String := ["black", "#005577", "#CC3333"]

/-! ## Data -/

/-- The struct `Lock`.  A `Lock *` is an `Option Lock`: `none` is `NULL`, and a
non-null pointer carries the pointed-to value (the program never writes to a
`Lock` after `lockscreen` has filled it in).  This stands for a pointer to a
live block, which is all that a run of `main` ever passes; pointers to freed
blocks are modelled by `Mem`, `unlockscreenPtr` and `unlockLoopPtr` below. -/
structure Lock where
  screen : Int
  root : Nat
  win : Nat
  pmap : Nat
  colors : List Nat
deriving DecidableEq, Repr

/-- A `Display *`: `none` is `NULL`, `some ()` is the connection returned by
`XOpenDisplay`. -/
abbrev DisplayPtr := Option Unit

/-- The library calls the program issues, with the arguments that matter. -/
inductive Call where
  | openDisplay
  | allocNamedColor (screen : Int) (name : String)
  | createWindow (root win background : Nat)
  | createBitmapFromData (win pmap : Nat)
  | createPixmapCursor (pmap cursor : Nat)
  | defineCursor (win cursor : Nat)
  | mapRaised (win : Nat)
  | grabPointer (root cursor : Nat)
  | grabKeyboard (root : Nat)
  | selectInput (root : Nat)
  | usleep (usec : Nat)
  | ungrabPointer
  | freeColors (screen : Int) (pixels : List Nat)
  | freePixmap (pmap : Nat)
  | destroyWindow (win : Nat)
  | sync
  | fork
  | nextEvent (type : Int)
  | closeDisplay
  | closeFd
  | execvp
deriving DecidableEq, Repr

/-- The lines written to `stderr`. -/
inductive Msg where
  | version
  | usage
  | cannotOpenDisplay
  | mallocFailed
  | pointerGrabFailed (screen : Int)
  | keyboardGrabFailed (screen : Int)
  | execvpFailed
deriving DecidableEq, Repr

/-- What the program does not decide itself. -/
structure Env where
  /-- Result of `XOpenDisplay(0)`: is it non-null? -/
  displayOpens : Bool
  /-- Value of `ScreenCount(dpy)`. -/
  nscreens : Nat
  /-- First resource identifier the connection hands out. -/
  resourceBase : Nat
  /-- Value of `RootWindow(dpy, screen)`. -/
  root : Int → Nat
  /-- The `pixel` that `XAllocNamedColor` stores for colour `i` on a screen. -/
  pixel : Int → Nat → Nat
  /-- Does `malloc(sizeof(Lock))` succeed in `lockscreen` for this screen? -/
  mallocLock : Int → Bool
  /-- Does `malloc(sizeof(Lock*) * nscreens)` succeed in `main`? -/
  mallocLocks : Bool
  /-- Result of the `a`-th call (from 0) of `XGrabPointer` for a screen. -/
  grabPointer : Int → Nat → Int
  /-- Result of the `a`-th call (from 0) of `XGrabKeyboard` for a screen. -/
  grabKeyboard : Int → Nat → Int
  /-- The `type` of the `i`-th event the connection delivers. -/
  eventType : Nat → Int
  /-- Return value of the `i`-th call of `XNextEvent`. -/
  nextEventStatus : Nat → Int
  /-- Return value of `fork()`. -/
  forkResult : Int
  /-- Does `execvp` replace the process image (it returns only on failure)? -/
  execvpOk : Bool

/-- The state the program changes. -/
structure World where
  /-- The global `running`. -/
  running : Bool
  /-- Next fresh resource identifier. -/
  nextId : Nat
  /-- Colour cells this client holds, as (screen, pixel), one entry per
  allocation. -/
  colors : List (Int × Nat)
  /-- Windows this client has created and not destroyed. -/
  windows : List Nat
  /-- Windows of this client that are mapped. -/
  mapped : List Nat
  /-- Pixmaps this client has created and not freed. -/
  pixmaps : List Nat
  /-- Cursors this client has created and not freed. -/
  cursors : List Nat
  /-- Window of the active pointer grab of this client, if it has one. -/
  pointerGrab : Option Nat
  /-- Window of the active keyboard grab of this client, if it has one. -/
  keyboardGrab : Option Nat
  /-- Number of live `malloc` blocks. -/
  heap : Nat
  /-- Number of calls of `XNextEvent` so far. -/
  consumed : Nat
  /-- Library calls issued so far, oldest first. -/
  calls : List Call
  /-- Lines written to `stderr` so far, oldest first. -/
  stderr : List Msg
deriving DecidableEq, Repr

/-- The state at the start of `main`: `running` is initialised to `True`. -/
def World.start (env : Env) : World :=
  { running := true, nextId := env.resourceBase, colors := [], windows := [],
    mapped := [], pixmaps := [], cursors := [], pointerGrab := none,
    keyboardGrab := none, heap := 0, consumed := 0, calls := [], stderr := [] }

/-- The state of `main` when the display is open and `locks` is allocated
(line 161). -/
def World.opened (env : Env) : World :=
  { World.start env with heap := 1, calls := [Call.openDisplay] }

/-! ## The library calls -/

/-- Record a call. -/
def World.call (w : World) (c : Call) : World :=
  { w with calls := w.calls ++ [c] }

/-- The call `fprintf(stderr, ...)`. -/
def fprintf (m : Msg) (w : World) : World :=
  { w with stderr := w.stderr ++ [m] }

/-- The call `usleep(usec)`. -/
def usleep (usec : Nat) (w : World) : World :=
  w.call (Call.usleep usec)

/-- The call `XAllocNamedColor` for `colorname[i]`; the result is `color.pixel`. -/
def XAllocNamedColor (env : Env) (screen : Int) (i : Nat) (w : World) : Nat × World :=
  (env.pixel screen i,
   { w with colors := (screen, env.pixel screen i) :: w.colors,
            calls := w.calls ++ [Call.allocNamedColor screen (colorname.getD i "")] })

/-- The call `XCreateWindow`; the result is the new window. -/
def XCreateWindow (root background : Nat) (w : World) : Nat × World :=
  (w.nextId,
   { w with nextId := w.nextId + 1, windows := w.nextId :: w.windows,
            calls := w.calls ++ [Call.createWindow root w.nextId background] })

/-- The call `XCreateBitmapFromData`; the result is the new pixmap. -/
def XCreateBitmapFromData (win : Nat) (w : World) : Nat × World :=
  (w.nextId,
   { w with nextId := w.nextId + 1, pixmaps := w.nextId :: w.pixmaps,
            calls := w.calls ++ [Call.createBitmapFromData win w.nextId] })

/-- The call `XCreatePixmapCursor`; the result is the new cursor. -/
def XCreatePixmapCursor (pmap : Nat) (w : World) : Nat × World :=
  (w.nextId,
   { w with nextId := w.nextId + 1, cursors := w.nextId :: w.cursors,
            calls := w.calls ++ [Call.createPixmapCursor pmap w.nextId] })

/-- The call `XDefineCursor`. -/
def XDefineCursor (win cursor : Nat) (w : World) : World :=
  w.call (Call.defineCursor win cursor)

/-- The call `XMapRaised`. -/
def XMapRaised (win : Nat) (w : World) : World :=
  { w with mapped := win :: w.mapped, calls := w.calls ++ [Call.mapRaised win] }

/-- The `attempt`-th call of `XGrabPointer` for a screen: the server answers
`env.grabPointer screen attempt`, and on `GrabSuccess` the client holds the
pointer grab on `root` (a client has one pointer grab; a new one replaces it). -/
def XGrabPointer (env : Env) (screen : Int) (attempt : Nat) (root cursor : Nat)
    (w : World) : Int × World :=
  (env.grabPointer screen attempt,
   { w with pointerGrab :=
              if env.grabPointer screen attempt = GrabSuccess then some root
              else w.pointerGrab,
            calls := w.calls ++ [Call.grabPointer root cursor] })

/-- The `attempt`-th call of `XGrabKeyboard` for a screen. -/
def XGrabKeyboard (env : Env) (screen : Int) (attempt : Nat) (root : Nat)
    (w : World) : Int × World :=
  (env.grabKeyboard screen attempt,
   { w with keyboardGrab :=
              if env.grabKeyboard screen attempt = GrabSuccess then some root
              else w.keyboardGrab,
            calls := w.calls ++ [Call.grabKeyboard root] })

/-- The call `XSelectInput(dpy, root, SubstructureNotifyMask)`. -/
def XSelectInput (root : Nat) (w : World) : World :=
  w.call (Call.selectInput root)

/-- The call `XUngrabPointer(dpy, CurrentTime)`: it takes no window and releases
the pointer grab of the client. -/
def XUngrabPointer (w : World) : World :=
  { w with pointerGrab := none, calls := w.calls ++ [Call.ungrabPointer] }

/-- The call `XFreeColors`: one cell per listed pixel is given back. -/
def XFreeColors (screen : Int) (pixels : List Nat) (w : World) : World :=
  { w with colors := pixels.foldl (fun cs p => cs.erase (screen, p)) w.colors,
            calls := w.calls ++ [Call.freeColors screen pixels] }

/-- The call `XFreePixmap`. -/
def XFreePixmap (pmap : Nat) (w : World) : World :=
  { w with pixmaps := w.pixmaps.erase pmap, calls := w.calls ++ [Call.freePixmap pmap] }

/-- The call `XDestroyWindow`. -/
def XDestroyWindow (win : Nat) (w : World) : World :=
  { w with windows := w.windows.erase win, mapped := w.mapped.erase win,
            calls := w.calls ++ [Call.destroyWindow win] }

/-- The call `XCloseDisplay`: the server drops every resource and grab of the
client. -/
def XCloseDisplay (w : World) : World :=
  { w with colors := [], windows := [], mapped := [], pixmaps := [], cursors := [],
            pointerGrab := none, keyboardGrab := none,
            calls := w.calls ++ [Call.closeDisplay] }

/-- The call `XSync(dpy, False)`. -/
def XSync (w : World) : World :=
  w.call Call.sync

/-- The call `free` on a live block. -/
def free (w : World) : World :=
  { w with heap := w.heap - 1 }

/-- The call `XNextEvent`: its return value and the type of the event it
stored. -/
def XNextEvent (env : Env) (w : World) : Int × Int × World :=
  (env.nextEventStatus w.consumed, env.eventType w.consumed,
   { w with consumed := w.consumed + 1,
            calls := w.calls ++ [Call.nextEvent (env.eventType w.consumed)] })

/-! ## `waitforevent` (lines 50 to 61) -/

/-- The loop `while (running && !XNextEvent(dpy, &ev))`.  One unit of `fuel`
pays for one evaluation of the loop condition; `none` means the loop is still
running when the fuel is spent. -/
def waitLoop (env : Env) : Nat → World → Option World
  | 0, _ => none
  | fuel + 1, w =>
    if w.running then
      if (XNextEvent env w).1 = 0 then
        if (XNextEvent env w).2.1 = KeyPress ∨ (XNextEvent env w).2.1 = ButtonPress then
          waitLoop env fuel { (XNextEvent env w).2.2 with running := false }
        else
          waitLoop env fuel (XNextEvent env w).2.2
      else
        some (XNextEvent env w).2.2
    else
      some w

/-- The function `waitforevent`. -/
def waitforevent (env : Env) (fuel : Nat) (w : World) : Option World :=
  waitLoop env fuel { w with running := true }

/-! ## `unlockscreen` (lines 63 to 75) -/

/-- The function `unlockscreen`. -/
def unlockscreen (dpy : DisplayPtr) (lock : Option Lock) (w : World) : World :=
  match dpy, lock with
  | some _, some l =>
    free (XDestroyWindow l.win (XFreePixmap l.pmap
      (XFreeColors l.screen l.colors (XUngrabPointer w))))
  | _, _ => w

/-! ## `lockscreen` (lines 77 to 135) -/

/-- The loop `for (i = 0; i < NUMCOLS; i++)` of `lockscreen`, over the indices
still to do; the result is the pixels stored in `lock->colors`. -/
def allocColors (env : Env) (screen : Int) : List Nat → World → List Nat × World
  | [], w => ([], w)
  | i :: rest, w =>
    ((XAllocNamedColor env screen i w).1 ::
        (allocColors env screen rest (XAllocNamedColor env screen i w).2).1,
     (allocColors env screen rest (XAllocNamedColor env screen i w).2).2)

/-- The first loop `for (len = 1000; len; len--)`: the pointer.  The argument is
the current `len`, the result the value of `len` after the loop.  The call made
when `len` attempts remain is attempt number `1000 - len`. -/
def grabPointerLoop (env : Env) (lock : Lock) (invisible : Nat) : Nat → World → Nat × World
  | 0, w => (0, w)
  | len + 1, w =>
    if (XGrabPointer env lock.screen (1000 - (len + 1)) lock.root invisible w).1 = GrabSuccess then
      (len + 1, (XGrabPointer env lock.screen (1000 - (len + 1)) lock.root invisible w).2)
    else
      grabPointerLoop env lock invisible len
        (usleep 1000 (XGrabPointer env lock.screen (1000 - (len + 1)) lock.root invisible w).2)

/-- The second loop `for (len = 1000; len; len--)`: the keyboard.  The result is
`true` when the loop is left by `return lock` (after `XSelectInput`), `false`
when `len` reaches 0. -/
def grabKeyboardLoop (env : Env) (lock : Lock) : Nat → World → Bool × World
  | 0, w => (false, w)
  | len + 1, w =>
    if (XGrabKeyboard env lock.screen (1000 - (len + 1)) lock.root w).1 = GrabSuccess then
      (true, XSelectInput lock.root (XGrabKeyboard env lock.screen (1000 - (len + 1)) lock.root w).2)
    else
      grabKeyboardLoop env lock len
        (usleep 1000 (XGrabKeyboard env lock.screen (1000 - (len + 1)) lock.root w).2)

/-- Lines 91 to 108 of `lockscreen`: from the successful `malloc` to
`XMapRaised`.  The result is the filled-in `Lock`, the cursor `invisible`, and
the state. -/
def setupLock (env : Env) (screen : Int) (w : World) : Lock × Nat × World :=
  let w0 : World := { w with heap := w.heap + 1 }
  let root := env.root screen
  let cs := allocColors env screen (List.range NUMCOLS) w0
  let win := XCreateWindow root (cs.1.getD INIT 0) cs.2
  let pmap := XCreateBitmapFromData win.1 win.2
  let invisible := XCreatePixmapCursor pmap.1 pmap.2
  let w1 := XMapRaised win.1 (XDefineCursor win.1 invisible.1 invisible.2)
  ({ screen := screen, root := root, win := win.1, pmap := pmap.1, colors := cs.1 },
   invisible.1, w1)

/-- Lines 131 to 134 of `lockscreen`: `running = 0; unlockscreen(dpy, lock);
return NULL;`. -/
def lockFailed (dpy : DisplayPtr) (lock : Lock) (w : World) : Option Lock × World :=
  (none, unlockscreen dpy (some lock) { w with running := false })

/-- Lines 111 to 134 of `lockscreen`: the two grab loops and what follows
them. -/
def grabBoth (env : Env) (dpy : DisplayPtr) (lock : Lock) (invisible : Nat) (w : World) :
    Option Lock × World :=
  let p := grabPointerLoop env lock invisible 1000 w
  if p.1 = 0 then
    lockFailed dpy lock (fprintf (Msg.pointerGrabFailed lock.screen) p.2)
  else
    let k := grabKeyboardLoop env lock 1000 p.2
    if k.1 then (some lock, k.2)
    else lockFailed dpy lock (fprintf (Msg.keyboardGrabFailed lock.screen) k.2)

/-- The function `lockscreen`. -/
def lockscreen (env : Env) (dpy : DisplayPtr) (screen : Int) (w : World) :
    Option Lock × World :=
  if !w.running || dpy.isNone || decide (screen < 0) || !env.mallocLock screen then
    (none, w)
  else
    grabBoth env dpy (setupLock env screen w).1 (setupLock env screen w).2.1
      (setupLock env screen w).2.2

/-! ## `main` (lines 144 to 192) -/

/-- How a process running `main` ends: `exit (status)`, or `execvp` replaced
the process image (the forked child). -/
inductive Outcome where
  | exit (status : Int)
  | exec
deriving DecidableEq, Repr

/-- The variables of the first loop of `main`: `locks` (the entries written so
far), `nlocks`, and the state. -/
structure LockSet where
  locks : List (Option Lock)
  nlocks : Nat
  world : World
deriving DecidableEq, Repr

/-- The body of the first loop of `main`:
`if ((locks[screen] = lockscreen(dpy, screen)) != NULL) nlocks++;`. -/
def lockStep (env : Env) (dpy : DisplayPtr) (screen : Nat) (s : LockSet) : LockSet :=
  { locks := s.locks ++ [(lockscreen env dpy (screen : Int) s.world).1],
    nlocks := if (lockscreen env dpy (screen : Int) s.world).1 ≠ none then s.nlocks + 1
              else s.nlocks,
    world := (lockscreen env dpy (screen : Int) s.world).2 }

/-- The loop `for (screen = 0; screen < nscreens; screen++)` that calls
`lockscreen`: `todo` iterations from `screen` on. -/
def lockLoop (env : Env) (dpy : DisplayPtr) : Nat → Nat → LockSet → LockSet
  | 0, _, s => s
  | todo + 1, screen, s => lockLoop env dpy todo (screen + 1) (lockStep env dpy screen s)

/-- Lines 161 to 165 of `main`: `nlocks = 0` and the first loop over all
`nscreens` screens. -/
def lockAll (env : Env) (dpy : DisplayPtr) (nscreens : Nat) (w : World) : LockSet :=
  lockLoop env dpy nscreens 0 { locks := [], nlocks := 0, world := w }

/-- The loop `for (screen = 0; screen < nscreens; screen++)` that calls
`unlockscreen(dpy, locks[screen])`; the array `locks` itself is not written.
This is the one run of the loop that `main` makes, in which every entry that is
not `NULL` points to a live `Lock`. -/
def unlockLoop (dpy : DisplayPtr) : List (Option Lock) → World → World
  | [], w => w
  | l :: rest, w => unlockLoop dpy rest (unlockscreen dpy l w)

/-- The function `die`: write the message and `exit(1)`. -/
def die (m : Msg) (w : World) : Outcome × World :=
  (Outcome.exit 1, fprintf m w)

/-- The function `usage`: write the usage line and `exit(1)`. -/
def usage (w : World) : Outcome × World :=
  (Outcome.exit 1, fprintf Msg.usage w)

/-- The part of `main` after the display is open and `locks` is allocated
(lines 161 to 191). -/
def mainLocked (env : Env) (argv : List String) (fuel : Nat) (w : World) :
    Option (Outcome × World) :=
  let dpy : DisplayPtr := some ()
  let s := lockAll env dpy env.nscreens w
  let w1 := XSync s.world
  if s.nlocks = 0 then
    some (Outcome.exit 1, XCloseDisplay (free w1))
  else if 2 ≤ argv.length ∧ env.forkResult = 0 then
    -- the child
    let w2 := ((w1.call Call.fork).call Call.closeFd).call Call.execvp
    if env.execvpOk then some (Outcome.exec, w2)
    else some (die Msg.execvpFailed w2)
  else
    let w2 := if 2 ≤ argv.length then w1.call Call.fork else w1
    match waitforevent env fuel w2 with
    | none => none
    | some w3 =>
      some (Outcome.exit 0, XCloseDisplay (free (unlockLoop dpy s.locks w3)))

/-- The function `main`; `argv` includes the program name, `fuel` bounds the
number of events `waitforevent` may look at, and `none` means that it is still
waiting when the fuel is spent. -/
def main (env : Env) (argv : List String) (fuel : Nat) : Option (Outcome × World) :=
  let w := World.start env
  if argv.length = 2 ∧ argv.getD 1 "" = "-v" then some (die Msg.version w)
  else if argv.length = 2 ∧ argv.getD 1 "" = "-h" then some (usage w)
  else if !env.displayOpens then some (die Msg.cannotOpenDisplay (w.call Call.openDisplay))
  else if !env.mallocLocks then some (die Msg.mallocFailed (w.call Call.openDisplay))
  else mainLocked env argv fuel (World.opened env)

/-! ## `unlockscreen` and the unlock loop with the guards as pointers

`unlockscreen` frees the `Lock` it is given but cannot clear the caller's
pointer, so after the unlock loop the entries of `locks` point to freed blocks.
To say what a further call on such a pointer does, the heap of `Lock` blocks is
made explicit here: a guard is an address (0 is `NULL`), and reading a `Lock`
through an address that is not live is undefined behaviour, where the model
stops. -/

/-- The state together with the heap: the live `Lock` blocks, each with its
address. -/
structure Mem where
  world : World
  blocks : List (Nat × Lock)
deriving DecidableEq, Repr

/-- How code that takes guards as addresses goes: it runs to the end in a
defined state, or it reads a `Lock` through an address that is not live
(undefined behaviour in C); then `undefined` keeps the state reached just
before that read, and nothing after it is modelled. -/
inductive Released where
  | done (m : Mem)
  | undefined (w : World)
deriving DecidableEq, Repr

/-- The function `unlockscreen` (lines 63 to 75) with the guard as an address.
Line 69, `XUngrabPointer`, does not look at the guard; line 70 is the first to
read it (`lock->screen`).  For a live block the calls are those of
`unlockscreen`, and `free(lock)` takes the block off the heap. -/
def unlockscreenPtr (dpy : DisplayPtr) (lock : Nat) (m : Mem) : Released :=
  if dpy.isNone || lock == 0 then Released.done m
  else
    match m.blocks.lookup lock with
    | none => Released.undefined (XUngrabPointer m.world)
    | some l =>
      Released.done
        { world := free (XDestroyWindow l.win (XFreePixmap l.pmap
            (XFreeColors l.screen l.colors (XUngrabPointer m.world)))),
          blocks := m.blocks.filter (fun b => b.1 != lock) }

/-- The loop `for (screen = 0; screen < nscreens; screen++)` that calls
`unlockscreen(dpy, locks[screen])`, over the addresses stored in `locks`; the
array is not written. -/
def unlockLoopPtr (dpy : DisplayPtr) : List Nat → Released → Released
  | [], r => r
  | _ :: _, Released.undefined w => Released.undefined w
  | p :: rest, Released.done m => unlockLoopPtr dpy rest (unlockscreenPtr dpy p m)

/-- The addresses and the heap for the entries of `locks` when the block of
the guard at index `s` lies at address `base + s + 1`: the first component is
the array `locks` as addresses (0 for `NULL`), the second the live blocks. -/
def layout : Nat → List (Option Lock) → List Nat × List (Nat × Lock)
  | _, [] => ([], [])
  | base, none :: rest => (0 :: (layout (base + 1) rest).1, (layout (base + 1) rest).2)
  | base, some l :: rest =>
    ((base + 1) :: (layout (base + 1) rest).1, (base + 1, l) :: (layout (base + 1) rest).2)

/-! ## Auxiliary definitions for the statements -/

/-- The calls of `n` failed attempts `c`, each followed by `usleep(1000)`. -/
def retryCalls (c : Call) : Nat → List Call
  | 0 => []
  | n + 1 => c :: Call.usleep 1000 :: retryCalls c n

/-- The calls of lines 94 to 108 of `lockscreen` for a screen, when the next
fresh identifier is `id`. -/
def setupCalls (env : Env) (screen : Int) (id : Nat) : List Call :=
  [Call.allocNamedColor screen "black", Call.allocNamedColor screen "#005577",
   Call.allocNamedColor screen "#CC3333",
   Call.createWindow (env.root screen) id (env.pixel screen 0),
   Call.createBitmapFromData id (id + 1), Call.createPixmapCursor (id + 1) (id + 2),
   Call.defineCursor id (id + 2), Call.mapRaised id]

/-- The `Lock` that `lockscreen` fills in for a screen, when the next fresh
identifier is `id`. -/
def lockOf (env : Env) (screen : Int) (id : Nat) : Lock :=
  { screen := screen, root := env.root screen, win := id, pmap := id + 1,
    colors := [env.pixel screen 0, env.pixel screen 1, env.pixel screen 2] }

/-- The calls of the release sequence of `unlockscreen` for a lock. -/
def releaseCalls (l : Lock) : List Call :=
  [Call.ungrabPointer, Call.freeColors l.screen l.colors, Call.freePixmap l.pmap,
   Call.destroyWindow l.win]

/-! ## Outcomes of the retry loops and of `lockscreen` -/

/-- The first `GrabSuccess` among the results `res 0, res 1, ...` of one retry
loop is at attempt `k` (counted from 0), within the 1000 attempts. -/
def FirstSuccessAt (res : Nat → Int) (k : Nat) : Prop :=
  k < 1000 ∧ res k = GrabSuccess ∧ ∀ a < k, res a ≠ GrabSuccess

/-- None of the first 1000 results of a retry loop is `GrabSuccess`. -/
def Exhausted (res : Nat → Int) : Prop :=
  ∀ a < 1000, res a ≠ GrabSuccess

instance (res : Nat → Int) (k : Nat) : Decidable (FirstSuccessAt res k) := by
  unfold FirstSuccessAt; infer_instance

instance (res : Nat → Int) : Decidable (Exhausted res) := by
  unfold Exhausted; infer_instance

/-- The first condition of `lockscreen` lets the call through: `running` is
set, `dpy` is not `NULL`, `screen` is not negative and `malloc` succeeds. -/
def Enters (env : Env) (dpy : DisplayPtr) (screen : Int) (w : World) : Prop :=
  w.running = true ∧ dpy = some () ∧ 0 ≤ screen ∧ env.mallocLock screen = true

instance (env : Env) (dpy : DisplayPtr) (screen : Int) (w : World) :
    Decidable (Enters env dpy screen w) := by
  unfold Enters; infer_instance

/-- The calls of one whole attempt of `lockscreen` on a screen up to the end of
the pointer loop, when the pointer is grabbed at attempt `kp`. -/
def pointerCalls (env : Env) (screen : Int) (id kp : Nat) : List Call :=
  setupCalls env screen id ++
    retryCalls (Call.grabPointer (env.root screen) (id + 2)) kp ++
    [Call.grabPointer (env.root screen) (id + 2)]

/-! ## Definitions for `waitforevent` -/

/-- An event type that ends the wait: `KeyPress` or `ButtonPress`. -/
def IsUnlock (t : Int) : Prop := t = KeyPress ∨ t = ButtonPress

instance (t : Int) : Decidable (IsUnlock t) := by
  unfold IsUnlock; infer_instance

/-- The calls of `n` successive `XNextEvent`, the first of which delivers event
number `start`. -/
def eventCalls (env : Env) : Nat → Nat → List Call
  | _, 0 => []
  | start, n + 1 => Call.nextEvent (env.eventType start) :: eventCalls env (start + 1) n

/-! ## Counting and listing calls -/

/-- Number of calls of `XGrabPointer` in a sequence of calls. -/
def pointerAttempts (cs : List Call) : Nat :=
  cs.countP (fun c => match c with
    | Call.grabPointer _ _ => true
    | _ => false)

/-- Number of calls of `XGrabKeyboard` in a sequence of calls. -/
def keyboardAttempts (cs : List Call) : Nat :=
  cs.countP (fun c => match c with
    | Call.grabKeyboard _ => true
    | _ => false)

/-- The calls of the second loop of `main` over the entries `locks`: one
release sequence for each entry that is not `NULL`. -/
def releaseAllCalls : List (Option Lock) → List Call
  | [] => []
  | none :: rest => releaseAllCalls rest
  | some l :: rest => releaseCalls l ++ releaseAllCalls rest

/-! ## Windows created and destroyed in a sequence of calls -/

/-- The windows made by the calls of `XCreateWindow` in a sequence of calls, in
order.  `lockscreen` creates one window per guard. -/
def createdWindows (cs : List Call) : List Nat :=
  cs.filterMap (fun c => match c with
    | Call.createWindow _ win _ => some win
    | _ => none)

/-- The windows given to the calls of `XDestroyWindow` in a sequence of calls,
in order.  Each run of the release sequence of `unlockscreen` destroys the
window of its guard, and nothing else does. -/
def destroyedWindows (cs : List Call) : List Nat :=
  cs.filterMap (fun c => match c with
    | Call.destroyWindow win => some win
    | _ => none)

/-- The windows of the guards in `locks` (the entries that are not `NULL`). -/
def guardWindows (locks : List (Option Lock)) : List Nat :=
  locks.filterMap (fun l => l.map Lock.win)

/-- No call of `XNextEvent` is in the sequence. -/
def NoEvents (cs : List Call) : Prop :=
  ∀ t, Call.nextEvent t ∉ cs

/-- The invariant of the first loop of `main`, started in the state `w0`, for
the calls `delta` it has added so far: no event has been read, every window
created so far is fresh and was created once, each of them is either the
window of a guard stored in `locks` or was destroyed once, and `nlocks` counts
the guards stored in `locks`. -/
def LockInv (w0 : World) (s : LockSet) (delta : List Call) : Prop :=
  s.world.calls = w0.calls ++ delta ∧ NoEvents delta ∧
  s.world.consumed = w0.consumed ∧
  (∀ x ∈ createdWindows delta, x < s.world.nextId) ∧
  (createdWindows delta).Nodup ∧
  List.Perm (guardWindows s.locks ++ destroyedWindows delta) (createdWindows delta) ∧
  s.nlocks = (guardWindows s.locks).length

/-! ## Definitions for the runs of `main` -/

/-- The invocation asks for the version or the usage text: `argc == 2` and
`argv[1]` is `-v` or `-h`. -/
def UsageOrVersion (argv : List String) : Prop :=
  (argv.length = 2 ∧ argv.getD 1 "" = "-v") ∨ (argv.length = 2 ∧ argv.getD 1 "" = "-h")

instance (argv : List String) : Decidable (UsageOrVersion argv) := by
  unfold UsageOrVersion; infer_instance

/-- The process is the child made by `fork()` in `main`: a command was given
and `fork()` returned 0. -/
def IsChild (env : Env) (argv : List String) : Prop :=
  2 ≤ argv.length ∧ env.forkResult = 0

instance (env : Env) (argv : List String) : Decidable (IsChild env argv) := by
  unfold IsChild; infer_instance

/-- The call of `fork()` in the parent, made when a command was given. -/
def forkCalls (argv : List String) : List Call :=
  if 2 ≤ argv.length then [Call.fork] else []

/-- The result of the first loop of `main` in a run where the display opens
and `locks` is allocated. -/
def acquired (env : Env) : LockSet :=
  lockAll env (some ()) env.nscreens (World.opened env)

/-- On this screen `malloc` succeeds and each of the two retry loops meets a
`GrabSuccess` within its 1000 attempts. -/
def Acquirable (env : Env) (screen : Int) : Prop :=
  env.mallocLock screen = true ∧ ¬ Exhausted (env.grabPointer screen) ∧
    ¬ Exhausted (env.grabKeyboard screen)

/-- The grabs of this screen are exhausted: the pointer loop fails 1000 times,
or else the keyboard loop does. -/
def GrabsExhausted (env : Env) (screen : Int) : Prop :=
  Exhausted (env.grabPointer screen) ∨ Exhausted (env.grabKeyboard screen)

instance (env : Env) (screen : Int) : Decidable (Acquirable env screen) := by
  unfold Acquirable; infer_instance

instance (env : Env) (screen : Int) : Decidable (GrabsExhausted env screen) := by
  unfold GrabsExhausted; infer_instance

/-- The state in which `main` calls `waitforevent`: after the first loop,
`XSync`, and `fork()` in the parent when a command was given. -/
def waitingState (env : Env) (argv : List String) : World :=
  { XSync (acquired env).world with
      calls := (XSync (acquired env).world).calls ++ forkCalls argv }

/-- The state in which `waitforevent` returns in `main` when event number `k`
is the first `KeyPress` or `ButtonPress`. -/
def unlockedState (env : Env) (argv : List String) (k : Nat) : World :=
  { waitingState env argv with
      running := false, consumed := (waitingState env argv).consumed + (k + 1),
      calls := (waitingState env argv).calls ++
        eventCalls env (waitingState env argv).consumed (k + 1) }

/-- The final state of `main` when it exits with status 0 after event number
`k`: the second loop over `locks`, `free(locks)`, `XCloseDisplay`. -/
def finalState (env : Env) (argv : List String) (k : Nat) : World :=
  XCloseDisplay (free (unlockLoop (some ()) (acquired env).locks (unlockedState env argv k)))

/-- Event number `k` is the first `KeyPress` or `ButtonPress` of the stream. -/
def FirstUnlockAt (env : Env) (k : Nat) : Prop :=
  IsUnlock (env.eventType k) ∧ ∀ j < k, ¬ IsUnlock (env.eventType j)

instance (env : Env) (k : Nat) : Decidable (FirstUnlockAt env k) := by
  unfold FirstUnlockAt; infer_instance

/-! ## Sample environments -/

/-- An environment with `n` screens in which every `malloc` succeeds, the
process is the parent of `fork`, `XNextEvent` returns 0, and the grab results
and event types are as given. -/
def sampleEnv (n : Nat) (ptr kbd : Int → Nat → Int) (ev : Nat → Int) : Env :=
  { displayOpens := true, nscreens := n, resourceBase := 100,
    root := fun s => s.toNat + 1, pixel := fun _ i => i,
    mallocLock := fun _ => true, mallocLocks := true,
    grabPointer := ptr, grabKeyboard := kbd, eventType := ev,
    nextEventStatus := fun _ => 0, forkResult := 4711, execvpOk := true }

/-- Two notifications of another kind, then a `ButtonPress`. -/
def sampleEvents : Nat → Int := fun i => if i = 2 then 4 else 22

/-- Every grab succeeds at once. -/
def grabsAtOnce : Int → Nat → Int := fun _ _ => 0

/-- No grab ever succeeds (`AlreadyGrabbed`). -/
def grabsNever : Int → Nat → Int := fun _ _ => 1

/-- Two screens, `malloc` fails in `lockscreen` for screen 0 only, and no grab
ever succeeds. -/
def mallocFailsOnFirst : Env :=
  { sampleEnv 2 grabsNever grabsNever sampleEvents with
      mallocLock := fun s => decide (s ≠ 0) }

/-- The pointer is never grabbed on screen 1 and at once on the others. -/
def pointerFailsOnSecond : Int → Nat → Int := fun s _ => if s = 1 then 1 else 0

/-! ## The straight-line part and the two retry loops -/

theorem setupLock_eq (env : Env) (screen : Int) (w : World) :
    setupLock env screen w =
      (lockOf env screen w.nextId, w.nextId + 2,
       { w with heap := w.heap + 1, nextId := w.nextId + 3,
                colors := (screen, env.pixel screen 2) :: (screen, env.pixel screen 1) ::
                  (screen, env.pixel screen 0) :: w.colors,
                windows := w.nextId :: w.windows, mapped := w.nextId :: w.mapped,
                pixmaps := (w.nextId + 1) :: w.pixmaps,
                cursors := (w.nextId + 2) :: w.cursors,
                calls := w.calls ++ setupCalls env screen w.nextId }) := by
  simp [setupLock, lockOf, setupCalls, allocColors, XAllocNamedColor, XCreateWindow,
    XCreateBitmapFromData, XCreatePixmapCursor, XDefineCursor, XMapRaised, World.call,
    NUMCOLS, INIT, colorname, List.range_succ, List.range_zero]

theorem grabPointerLoop_fail (env : Env) (lock : Lock) (inv : Nat) :
    ∀ (len : Nat) (w : World), len ≤ 1000 →
      (∀ a, 1000 - len ≤ a → a < 1000 → env.grabPointer lock.screen a ≠ GrabSuccess) →
      grabPointerLoop env lock inv len w =
        (0, { w with calls := w.calls ++ retryCalls (Call.grabPointer lock.root inv) len }) := by
  intro len
  induction len with
  | zero => intro w _ _; simp [grabPointerLoop, retryCalls]
  | succ n ih =>
    intro w hle hall
    have h0 : env.grabPointer lock.screen (1000 - (n + 1)) ≠ GrabSuccess :=
      hall _ (le_refl _) (by omega)
    rw [grabPointerLoop]
    simp only [XGrabPointer, h0, if_false]
    rw [ih _ (by omega) (fun a h1 h2 => hall a (by omega) h2)]
    simp [usleep, World.call, retryCalls]

theorem grabPointerLoop_success (env : Env) (lock : Lock) (inv : Nat) :
    ∀ (len : Nat) (w : World) (k : Nat), len ≤ 1000 → k < len →
      (∀ a, 1000 - len ≤ a → a < 1000 - len + k →
        env.grabPointer lock.screen a ≠ GrabSuccess) →
      env.grabPointer lock.screen (1000 - len + k) = GrabSuccess →
      grabPointerLoop env lock inv len w =
        (len - k,
         { w with pointerGrab := some lock.root,
                  calls := w.calls ++ retryCalls (Call.grabPointer lock.root inv) k ++
                    [Call.grabPointer lock.root inv] }) := by
  intro len
  induction len with
  | zero => intro w k _ hk; omega
  | succ n ih =>
    intro w k hle hk hbefore hat
    rw [grabPointerLoop]
    cases k with
    | zero =>
      have h0 : env.grabPointer lock.screen (1000 - (n + 1)) = GrabSuccess := by
        simpa using hat
      simp only [XGrabPointer, h0, if_true]
      simp [retryCalls]
    | succ j =>
      have h0 : env.grabPointer lock.screen (1000 - (n + 1)) ≠ GrabSuccess :=
        hbefore _ (le_refl _) (by omega)
      simp only [XGrabPointer, h0, if_false]
      have hidx : 1000 - n + j = 1000 - (n + 1) + (j + 1) := by omega
      rw [ih _ j (by omega) (by omega)
        (fun a h1 h2 => hbefore a (by omega) (by omega)) (by rw [hidx]; exact hat)]
      have hsub : n + 1 - (j + 1) = n - j := by omega
      simp [usleep, World.call, retryCalls, hsub]

theorem grabKeyboardLoop_fail (env : Env) (lock : Lock) :
    ∀ (len : Nat) (w : World), len ≤ 1000 →
      (∀ a, 1000 - len ≤ a → a < 1000 → env.grabKeyboard lock.screen a ≠ GrabSuccess) →
      grabKeyboardLoop env lock len w =
        (false, { w with calls := w.calls ++ retryCalls (Call.grabKeyboard lock.root) len }) := by
  intro len
  induction len with
  | zero => intro w _ _; simp [grabKeyboardLoop, retryCalls]
  | succ n ih =>
    intro w hle hall
    have h0 : env.grabKeyboard lock.screen (1000 - (n + 1)) ≠ GrabSuccess :=
      hall _ (le_refl _) (by omega)
    rw [grabKeyboardLoop]
    simp only [XGrabKeyboard, h0, if_false]
    rw [ih _ (by omega) (fun a h1 h2 => hall a (by omega) h2)]
    simp [usleep, World.call, retryCalls]

theorem grabKeyboardLoop_success (env : Env) (lock : Lock) :
    ∀ (len : Nat) (w : World) (k : Nat), len ≤ 1000 → k < len →
      (∀ a, 1000 - len ≤ a → a < 1000 - len + k →
        env.grabKeyboard lock.screen a ≠ GrabSuccess) →
      env.grabKeyboard lock.screen (1000 - len + k) = GrabSuccess →
      grabKeyboardLoop env lock len w =
        (true,
         { w with keyboardGrab := some lock.root,
                  calls := w.calls ++ retryCalls (Call.grabKeyboard lock.root) k ++
                    [Call.grabKeyboard lock.root, Call.selectInput lock.root] }) := by
  intro len
  induction len with
  | zero => intro w k _ hk; omega
  | succ n ih =>
    intro w k hle hk hbefore hat
    rw [grabKeyboardLoop]
    cases k with
    | zero =>
      have h0 : env.grabKeyboard lock.screen (1000 - (n + 1)) = GrabSuccess := by
        simpa using hat
      simp only [XGrabKeyboard, h0, if_true]
      simp [XSelectInput, World.call, retryCalls]
    | succ j =>
      have h0 : env.grabKeyboard lock.screen (1000 - (n + 1)) ≠ GrabSuccess :=
        hbefore _ (le_refl _) (by omega)
      simp only [XGrabKeyboard, h0, if_false]
      have hidx : 1000 - n + j = 1000 - (n + 1) + (j + 1) := by omega
      rw [ih _ j (by omega) (by omega)
        (fun a h1 h2 => hbefore a (by omega) (by omega)) (by rw [hidx]; exact hat)]
      simp [usleep, World.call, retryCalls]

/-! ## Closed forms of `unlockscreen` and `lockscreen` -/

theorem erase_three {α : Type} [BEq α] [LawfulBEq α] (a b c : α) (base : List α) :
    (((c :: b :: a :: base).erase a).erase b).erase c = base := by
  by_cases hba : b = a <;> by_cases hca : c = a <;> by_cases hcb : c = b <;>
    simp_all [List.erase_cons]

theorem unlockscreen_some (l : Lock) (w : World) :
    unlockscreen (some ()) (some l) w =
      { w with pointerGrab := none,
               colors := l.colors.foldl (fun cs p => cs.erase (l.screen, p)) w.colors,
               pixmaps := w.pixmaps.erase l.pmap,
               windows := w.windows.erase l.win,
               mapped := w.mapped.erase l.win,
               heap := w.heap - 1,
               calls := w.calls ++ releaseCalls l } := by
  simp [unlockscreen, free, XDestroyWindow, XFreePixmap, XFreeColors, XUngrabPointer,
    releaseCalls]

theorem lockscreen_skip (env : Env) (dpy : DisplayPtr) (screen : Int) (w : World)
    (h : ¬ Enters env dpy screen w) : lockscreen env dpy screen w = (none, w) := by
  unfold lockscreen
  rw [if_pos]
  cases dpy <;> simp_all [Enters]
  by_contra hc
  simp_all

theorem lockscreen_enter (env : Env) (dpy : DisplayPtr) (screen : Int) (w : World)
    (h : Enters env dpy screen w) :
    lockscreen env dpy screen w =
      grabBoth env (some ()) (lockOf env screen w.nextId) (w.nextId + 2)
        (setupLock env screen w).2.2 := by
  obtain ⟨h1, h2, h3, h4⟩ := h
  subst h2
  unfold lockscreen
  rw [if_neg (by simp [h1, h4]; omega)]
  simp [setupLock_eq]

theorem lockscreen_pointer_fail (env : Env) (dpy : DisplayPtr) (screen : Int) (w : World)
    (h : Enters env dpy screen w) (hp : Exhausted (env.grabPointer screen)) :
    lockscreen env dpy screen w =
      (none,
       { w with running := false, nextId := w.nextId + 3,
                cursors := (w.nextId + 2) :: w.cursors, pointerGrab := none,
                calls := w.calls ++ (setupCalls env screen w.nextId ++
                  retryCalls (Call.grabPointer (env.root screen) (w.nextId + 2)) 1000 ++
                  releaseCalls (lockOf env screen w.nextId)),
                stderr := w.stderr ++ [Msg.pointerGrabFailed screen] }) := by
  rw [lockscreen_enter env dpy screen w h, setupLock_eq]
  unfold grabBoth
  have hl := grabPointerLoop_fail env (lockOf env screen w.nextId) (w.nextId + 2) 1000
  simp only [lockOf] at hl hp ⊢
  simp only [hl _ (le_refl _) (fun a _ h2 => hp a h2), lockFailed, fprintf, if_true]
  rw [unlockscreen_some]
  simp [releaseCalls, List.foldl]
  exact erase_three _ _ _ _

theorem lockscreen_keyboard_fail (env : Env) (dpy : DisplayPtr) (screen : Int) (w : World)
    (kp : Nat) (h : Enters env dpy screen w)
    (hp : FirstSuccessAt (env.grabPointer screen) kp)
    (hk : Exhausted (env.grabKeyboard screen)) :
    lockscreen env dpy screen w =
      (none,
       { w with running := false, nextId := w.nextId + 3,
                cursors := (w.nextId + 2) :: w.cursors, pointerGrab := none,
                calls := w.calls ++ (pointerCalls env screen w.nextId kp ++
                  retryCalls (Call.grabKeyboard (env.root screen)) 1000 ++
                  releaseCalls (lockOf env screen w.nextId)),
                stderr := w.stderr ++ [Msg.keyboardGrabFailed screen] }) := by
  obtain ⟨hp1, hp2, hp3⟩ := hp
  rw [lockscreen_enter env dpy screen w h, setupLock_eq]
  unfold grabBoth
  have hl := grabPointerLoop_success env (lockOf env screen w.nextId) (w.nextId + 2) 1000
  have hl2 := grabKeyboardLoop_fail env (lockOf env screen w.nextId) 1000
  simp only [lockOf] at hl hl2 hp2 hp3 hk ⊢
  have hne : 1000 - kp ≠ 0 := by omega
  simp only [hl _ kp (le_refl _) hp1 (fun a _ h2 => hp3 a (by omega)) (by simpa using hp2),
    hl2 _ (le_refl _) (fun a _ h2 => hk a h2), lockFailed, fprintf, hne, if_false]
  rw [unlockscreen_some]
  simp [releaseCalls, List.foldl, pointerCalls]
  exact erase_three _ _ _ _

theorem lockscreen_success (env : Env) (dpy : DisplayPtr) (screen : Int) (w : World)
    (kp kk : Nat) (h : Enters env dpy screen w)
    (hp : FirstSuccessAt (env.grabPointer screen) kp)
    (hk : FirstSuccessAt (env.grabKeyboard screen) kk) :
    lockscreen env dpy screen w =
      (some (lockOf env screen w.nextId),
       { w with heap := w.heap + 1, nextId := w.nextId + 3,
                colors := (screen, env.pixel screen 2) :: (screen, env.pixel screen 1) ::
                  (screen, env.pixel screen 0) :: w.colors,
                windows := w.nextId :: w.windows, mapped := w.nextId :: w.mapped,
                pixmaps := (w.nextId + 1) :: w.pixmaps,
                cursors := (w.nextId + 2) :: w.cursors,
                pointerGrab := some (env.root screen),
                keyboardGrab := some (env.root screen),
                calls := w.calls ++ (pointerCalls env screen w.nextId kp ++
                  retryCalls (Call.grabKeyboard (env.root screen)) kk ++
                  [Call.grabKeyboard (env.root screen), Call.selectInput (env.root screen)]) }) := by
  obtain ⟨hp1, hp2, hp3⟩ := hp
  obtain ⟨hk1, hk2, hk3⟩ := hk
  rw [lockscreen_enter env dpy screen w h, setupLock_eq]
  unfold grabBoth
  have hl := grabPointerLoop_success env (lockOf env screen w.nextId) (w.nextId + 2) 1000
  have hl2 := grabKeyboardLoop_success env (lockOf env screen w.nextId) 1000
  simp only [lockOf] at hl hl2 hp2 hp3 hk2 hk3 ⊢
  have hne : 1000 - kp ≠ 0 := by omega
  simp only [hl _ kp (le_refl _) hp1 (fun a _ h2 => hp3 a (by omega)) (by simpa using hp2),
    hl2 _ kk (le_refl _) hk1 (fun a _ h2 => hk3 a (by omega)) (by simpa using hk2),
    hne, if_false, if_true]
  simp [pointerCalls]

/-! ## `waitforevent`: the loop -/

theorem waitLoop_unlock (env : Env) (hst : ∀ i, env.nextEventStatus i = 0) :
    ∀ (k fuel : Nat) (w : World), w.running = true →
      IsUnlock (env.eventType (w.consumed + k)) →
      (∀ j < k, ¬ IsUnlock (env.eventType (w.consumed + j))) →
      waitLoop env fuel w =
        if k + 2 ≤ fuel then
          some { w with running := false, consumed := w.consumed + (k + 1),
                        calls := w.calls ++ eventCalls env w.consumed (k + 1) }
        else none := by
  intro k
  induction k with
  | zero =>
    intro fuel w hrun hk _
    have hk0 : env.eventType w.consumed = KeyPress ∨ env.eventType w.consumed = ButtonPress := by
      simpa [IsUnlock] using hk
    match fuel with
    | 0 => simp [waitLoop]
    | 1 => simp [waitLoop, hrun, XNextEvent, hst, hk0]
    | f + 2 => simp [waitLoop, hrun, XNextEvent, hst, hk0, eventCalls]
  | succ n ih =>
    intro fuel w hrun hk hbefore
    have h0 : ¬ (env.eventType w.consumed = KeyPress ∨ env.eventType w.consumed = ButtonPress) := by
      simpa [IsUnlock] using hbefore 0 (by omega)
    match fuel with
    | 0 => simp [waitLoop]
    | f + 1 =>
      rw [waitLoop]
      simp only [hrun, XNextEvent, hst, h0, if_true, if_false]
      rw [ih f _ rfl
        (by
          show IsUnlock (env.eventType (w.consumed + 1 + n))
          rw [show w.consumed + 1 + n = w.consumed + (n + 1) by omega]
          exact hk)
        (fun j hj => by
          show ¬ IsUnlock (env.eventType (w.consumed + 1 + j))
          rw [show w.consumed + 1 + j = w.consumed + (j + 1) by omega]
          exact hbefore (j + 1) (by omega))]
      have e1 : w.consumed + 1 + (n + 1) = w.consumed + (n + 1 + 1) := by omega
      simp [eventCalls, e1]

theorem waitLoop_blocked (env : Env) (hst : ∀ i, env.nextEventStatus i = 0) :
    ∀ (fuel : Nat) (w : World), w.running = true →
      (∀ j < fuel, ¬ IsUnlock (env.eventType (w.consumed + j))) →
      waitLoop env fuel w = none := by
  intro fuel
  induction fuel with
  | zero => intro w _ _; simp [waitLoop]
  | succ f ih =>
    intro w hrun hno
    have h0 : ¬ (env.eventType w.consumed = KeyPress ∨ env.eventType w.consumed = ButtonPress) := by
      simpa [IsUnlock] using hno 0 (by omega)
    rw [waitLoop]
    simp only [hrun, XNextEvent, hst, h0, if_true, if_false]
    exact ih _ rfl (fun j hj => by
      show ¬ IsUnlock (env.eventType (w.consumed + 1 + j))
      rw [show w.consumed + 1 + j = w.consumed + (j + 1) by omega]
      exact hno (j + 1) (by omega))

theorem exhausted_or_first (res : Nat → Int) :
    Exhausted res ∨ ∃ k, FirstSuccessAt res k := by
  by_cases h : ∃ a, a < 1000 ∧ res a = GrabSuccess
  · right
    refine ⟨Nat.find h, (Nat.find_spec h).1, (Nat.find_spec h).2, ?_⟩
    intro a ha hres
    exact Nat.find_min h ha ⟨lt_trans ha (Nat.find_spec h).1, hres⟩
  · left
    intro a ha hres
    exact h ⟨a, ha, hres⟩

theorem not_exhausted_of_first {res : Nat → Int} {k : Nat} (h : FirstSuccessAt res k) :
    ¬ Exhausted res := fun he => he k h.1 h.2.1

/-- The four ways a call of `lockscreen` can go. -/
theorem lockscreen_cases (env : Env) (dpy : DisplayPtr) (screen : Int) (w : World) :
    (¬ Enters env dpy screen w ∧ lockscreen env dpy screen w = (none, w)) ∨
    (Enters env dpy screen w ∧ Exhausted (env.grabPointer screen)) ∨
    (Enters env dpy screen w ∧ ∃ kp, FirstSuccessAt (env.grabPointer screen) kp ∧
      Exhausted (env.grabKeyboard screen)) ∨
    (Enters env dpy screen w ∧ ∃ kp kk, FirstSuccessAt (env.grabPointer screen) kp ∧
      FirstSuccessAt (env.grabKeyboard screen) kk) := by
  by_cases he : Enters env dpy screen w
  · rcases exhausted_or_first (env.grabPointer screen) with hp | ⟨kp, hp⟩
    · exact Or.inr (Or.inl ⟨he, hp⟩)
    · rcases exhausted_or_first (env.grabKeyboard screen) with hk | ⟨kk, hk⟩
      · exact Or.inr (Or.inr (Or.inl ⟨he, kp, hp, hk⟩))
      · exact Or.inr (Or.inr (Or.inr ⟨he, kp, kk, hp, hk⟩))
  · exact Or.inl ⟨he, lockscreen_skip env dpy screen w he⟩

/-! ## The loops of `main` -/

theorem lockLoop_add (env : Env) (dpy : DisplayPtr) :
    ∀ (a b screen : Nat) (s : LockSet),
      lockLoop env dpy (a + b) screen s =
        lockLoop env dpy b (screen + a) (lockLoop env dpy a screen s) := by
  intro a
  induction a with
  | zero => intro b screen s; simp [lockLoop]
  | succ n ih =>
    intro b screen s
    rw [show n + 1 + b = (n + b) + 1 by omega, lockLoop, lockLoop, ih]
    rw [show screen + 1 + n = screen + (n + 1) by omega]

theorem lockLoop_succ (env : Env) (dpy : DisplayPtr) (n screen : Nat) (s : LockSet) :
    lockLoop env dpy (n + 1) screen s =
      lockStep env dpy (screen + n) (lockLoop env dpy n screen s) := by
  rw [lockLoop_add env dpy n 1 screen s]
  simp [lockLoop]

theorem lockAll_succ (env : Env) (dpy : DisplayPtr) (n : Nat) (w : World) :
    lockAll env dpy (n + 1) w = lockStep env dpy n (lockAll env dpy n w) := by
  simp [lockAll, lockLoop_succ]

theorem lockAll_zero (env : Env) (dpy : DisplayPtr) (w : World) :
    lockAll env dpy 0 w = { locks := [], nlocks := 0, world := w } := by
  simp [lockAll, lockLoop]

theorem lockAll_length (env : Env) (dpy : DisplayPtr) (w : World) :
    ∀ n, (lockAll env dpy n w).locks.length = n := by
  intro n
  induction n with
  | zero => simp [lockAll_zero]
  | succ n ih => simp [lockAll_succ, lockStep, ih]

/-- Once `running` is cleared, a step of the first loop changes nothing but
the entry it writes, which is `NULL`. -/
theorem lockStep_stopped (env : Env) (dpy : DisplayPtr) (screen : Nat) (s : LockSet)
    (h : s.world.running = false) :
    lockStep env dpy screen s = { s with locks := s.locks ++ [none] } := by
  have hs : lockscreen env dpy (screen : Int) s.world = (none, s.world) :=
    lockscreen_skip env dpy _ _ (by simp [Enters, h])
  simp [lockStep, hs]

theorem lockLoop_stopped (env : Env) (dpy : DisplayPtr) :
    ∀ (m screen : Nat) (s : LockSet), s.world.running = false →
      lockLoop env dpy m screen s = { s with locks := s.locks ++ List.replicate m none } := by
  intro m
  induction m with
  | zero => intro screen s _; simp [lockLoop]
  | succ n ih =>
    intro screen s h
    rw [lockLoop, lockStep_stopped env dpy screen s h,
      ih (screen + 1) { s with locks := s.locks ++ [none] } h]
    simp [List.replicate_succ]

/-! ## Claims on `waitforevent`, `unlockscreen` and `lockscreen` -/

/-- C1: whatever the run flag was, and for every stream of events (with
`XNextEvent` returning 0, as Xlib does), `waitforevent` re-arms the flag and
returns exactly after the first `KeyPress` or `ButtonPress`: if that is event
number `k` from the current one, then with fuel for `k + 2` loop tests it
returns the entry state with `running` false, `k + 1` events consumed and only
the `k + 1` calls of `XNextEvent` added (the earlier events change nothing
else), and with less fuel it has not returned; as long as no such event has
arrived it does not return; the initial value of `running` has no influence. -/
theorem waitforevent_first_unlock (env : Env) (w : World)
    (hst : ∀ i, env.nextEventStatus i = 0) :
    (∀ k, IsUnlock (env.eventType (w.consumed + k)) →
      (∀ j < k, ¬ IsUnlock (env.eventType (w.consumed + j))) →
      ∀ fuel, waitforevent env fuel w =
        if k + 2 ≤ fuel then
          some { w with running := false, consumed := w.consumed + (k + 1),
                        calls := w.calls ++ eventCalls env w.consumed (k + 1) }
        else none) ∧
    (∀ fuel, (∀ j < fuel, ¬ IsUnlock (env.eventType (w.consumed + j))) →
      waitforevent env fuel w = none) ∧
    (∀ fuel b, waitforevent env fuel { w with running := b } = waitforevent env fuel w) := by
  refine ⟨?_, ?_, ?_⟩
  · intro k hk hbefore fuel
    unfold waitforevent
    rw [waitLoop_unlock env hst k fuel { w with running := true } rfl hk hbefore]
  · intro fuel hno
    unfold waitforevent
    exact waitLoop_blocked env hst fuel { w with running := true } rfl hno
  · intro fuel b
    rfl

/-- Witness for C1: the run flag is false on entry, the third event is a
`ButtonPress`; with fuel 5 the call returns after three events, with fuel 3 it
is still waiting. -/
theorem waitforevent_first_unlock_witness :
    (∀ i, (sampleEnv 1 grabsAtOnce grabsAtOnce sampleEvents).nextEventStatus i = 0) ∧
    waitforevent (sampleEnv 1 grabsAtOnce grabsAtOnce sampleEvents) 5
        { World.start (sampleEnv 1 grabsAtOnce grabsAtOnce sampleEvents) with running := false } =
      some { World.start (sampleEnv 1 grabsAtOnce grabsAtOnce sampleEvents) with
              running := false, consumed := 3,
              calls := [Call.nextEvent 22, Call.nextEvent 22, Call.nextEvent 4] } ∧
    waitforevent (sampleEnv 1 grabsAtOnce grabsAtOnce sampleEvents) 3
        { World.start (sampleEnv 1 grabsAtOnce grabsAtOnce sampleEvents) with running := false } =
      none := by
  have h := waitforevent_first_unlock (sampleEnv 1 grabsAtOnce grabsAtOnce sampleEvents)
    { World.start (sampleEnv 1 grabsAtOnce grabsAtOnce sampleEvents) with running := false }
    (fun _ => rfl)
  refine ⟨fun _ => rfl, ?_, ?_⟩
  · have h5 := h.1 2 (by decide) (by decide) 5
    simpa [eventCalls, World.start, sampleEnv, sampleEvents] using h5
  · have h3 := h.1 2 (by decide) (by decide) 3
    simpa using h3

/-- C10: for a non-null display and a non-empty guard, `unlockscreen` issues
exactly `XUngrabPointer`, `XFreeColors` of the guard's colours, `XFreePixmap`
of its pixmap and `XDestroyWindow` of its window, in this order and whatever
the state is (it then frees the guard's memory); for a null display or an
empty guard it does nothing at all. -/
theorem unlockscreen_release_order (dpy : DisplayPtr) (lock : Option Lock) (w : World) :
    (∀ l, dpy = some () → lock = some l →
      (unlockscreen dpy lock w).calls =
        w.calls ++ [Call.ungrabPointer, Call.freeColors l.screen l.colors,
          Call.freePixmap l.pmap, Call.destroyWindow l.win] ∧
      (unlockscreen dpy lock w).stderr = w.stderr ∧
      (unlockscreen dpy lock w).heap = w.heap - 1) ∧
    (dpy = none ∨ lock = none → unlockscreen dpy lock w = w) := by
  refine ⟨?_, ?_⟩
  · intro l hd hl
    subst hd hl
    simp [unlockscreen_some, releaseCalls]
  · rintro (h | h)
    · subst h; simp [unlockscreen]
    · subst h; cases dpy <;> simp [unlockscreen]

/-- Witness for C10: a guard of screen 0 with window 100, pixmap 101 and pixels
0, 1, 2, released in the state at the start of `main`. -/
theorem unlockscreen_release_order_witness :
    (unlockscreen (some ())
      (some { screen := 0, root := 1, win := 100, pmap := 101, colors := [0, 1, 2] })
      (World.opened (sampleEnv 1 grabsAtOnce grabsAtOnce sampleEvents))).calls =
      [Call.openDisplay, Call.ungrabPointer, Call.freeColors 0 [0, 1, 2],
        Call.freePixmap 101, Call.destroyWindow 100] ∧
    unlockscreen (some ()) none
      (World.opened (sampleEnv 1 grabsAtOnce grabsAtOnce sampleEvents)) =
      World.opened (sampleEnv 1 grabsAtOnce grabsAtOnce sampleEvents) := by
  have h := unlockscreen_release_order (some ())
    (some { screen := 0, root := 1, win := 100, pmap := 101, colors := [0, 1, 2] })
    (World.opened (sampleEnv 1 grabsAtOnce grabsAtOnce sampleEvents))
  have h2 := unlockscreen_release_order (some ()) none
    (World.opened (sampleEnv 1 grabsAtOnce grabsAtOnce sampleEvents))
  exact ⟨(h.1 _ rfl rfl).1, h2.2 (Or.inr rfl)⟩

theorem pointerAttempts_append (a b : List Call) :
    pointerAttempts (a ++ b) = pointerAttempts a + pointerAttempts b := by
  simp [pointerAttempts, List.countP_append]

theorem keyboardAttempts_append (a b : List Call) :
    keyboardAttempts (a ++ b) = keyboardAttempts a + keyboardAttempts b := by
  simp [keyboardAttempts, List.countP_append]

theorem pointerAttempts_retry_pointer (r c : Nat) :
    ∀ n, pointerAttempts (retryCalls (Call.grabPointer r c) n) = n := by
  intro n
  induction n with
  | zero => simp [retryCalls, pointerAttempts]
  | succ n ih =>
    simp only [pointerAttempts] at ih
    simp [retryCalls, pointerAttempts, List.countP_cons, ih]

theorem pointerAttempts_retry_keyboard (r : Nat) :
    ∀ n, pointerAttempts (retryCalls (Call.grabKeyboard r) n) = 0 := by
  intro n
  induction n with
  | zero => simp [retryCalls, pointerAttempts]
  | succ n ih =>
    simp only [pointerAttempts] at ih
    simp [retryCalls, pointerAttempts, List.countP_cons, ih]

theorem keyboardAttempts_retry_keyboard (r : Nat) :
    ∀ n, keyboardAttempts (retryCalls (Call.grabKeyboard r) n) = n := by
  intro n
  induction n with
  | zero => simp [retryCalls, keyboardAttempts]
  | succ n ih =>
    simp only [keyboardAttempts] at ih
    simp [retryCalls, keyboardAttempts, List.countP_cons, ih]

theorem keyboardAttempts_retry_pointer (r c : Nat) :
    ∀ n, keyboardAttempts (retryCalls (Call.grabPointer r c) n) = 0 := by
  intro n
  induction n with
  | zero => simp [retryCalls, keyboardAttempts]
  | succ n ih =>
    simp only [keyboardAttempts] at ih
    simp [retryCalls, keyboardAttempts, List.countP_cons, ih]

theorem pointerAttempts_setup (env : Env) (screen : Int) (id : Nat) :
    pointerAttempts (setupCalls env screen id) = 0 := by
  simp [setupCalls, pointerAttempts, List.countP_cons]

theorem keyboardAttempts_setup (env : Env) (screen : Int) (id : Nat) :
    keyboardAttempts (setupCalls env screen id) = 0 := by
  simp [setupCalls, keyboardAttempts, List.countP_cons]

theorem pointerAttempts_release (l : Lock) : pointerAttempts (releaseCalls l) = 0 := by
  simp [releaseCalls, pointerAttempts, List.countP_cons]

theorem keyboardAttempts_release (l : Lock) : keyboardAttempts (releaseCalls l) = 0 := by
  simp [releaseCalls, keyboardAttempts, List.countP_cons]

theorem pointerAttempts_pointerCalls (env : Env) (screen : Int) (id kp : Nat) :
    pointerAttempts (pointerCalls env screen id kp) = kp + 1 := by
  simp [pointerCalls, pointerAttempts_append, pointerAttempts_setup,
    pointerAttempts_retry_pointer]
  simp [pointerAttempts, List.countP_cons]

theorem keyboardAttempts_pointerCalls (env : Env) (screen : Int) (id kp : Nat) :
    keyboardAttempts (pointerCalls env screen id kp) = 0 := by
  simp [pointerCalls, keyboardAttempts_append, keyboardAttempts_setup,
    keyboardAttempts_retry_pointer]
  simp [keyboardAttempts, List.countP_cons]

/-- Number of pointer attempts of one call of `lockscreen` that passes its
first condition: all 1000 when none succeeds, else up to the first success. -/
theorem lockscreen_pointerAttempts (env : Env) (dpy : DisplayPtr) (screen : Int) (w : World)
    (h : Enters env dpy screen w) :
    (Exhausted (env.grabPointer screen) →
      pointerAttempts (lockscreen env dpy screen w).2.calls = pointerAttempts w.calls + 1000) ∧
    (∀ kp, FirstSuccessAt (env.grabPointer screen) kp →
      pointerAttempts (lockscreen env dpy screen w).2.calls =
        pointerAttempts w.calls + (kp + 1)) := by
  refine ⟨?_, ?_⟩
  · intro hp
    rw [lockscreen_pointer_fail env dpy screen w h hp]
    simp [pointerAttempts_append, pointerAttempts_setup, pointerAttempts_retry_pointer,
      pointerAttempts_release]
  · intro kp hp
    rcases exhausted_or_first (env.grabKeyboard screen) with hk | ⟨kk, hk⟩
    · rw [lockscreen_keyboard_fail env dpy screen w kp h hp hk]
      simp [pointerAttempts_append, pointerAttempts_pointerCalls,
        pointerAttempts_retry_keyboard, pointerAttempts_release]
    · rw [lockscreen_success env dpy screen w kp kk h hp hk]
      simp [pointerAttempts_append, pointerAttempts_pointerCalls,
        pointerAttempts_retry_keyboard]
      simp [pointerAttempts, List.countP_cons]

/-- Number of keyboard attempts of one call of `lockscreen` that passes its
first condition. -/
theorem lockscreen_keyboardAttempts (env : Env) (dpy : DisplayPtr) (screen : Int) (w : World)
    (h : Enters env dpy screen w) :
    (Exhausted (env.grabPointer screen) →
      keyboardAttempts (lockscreen env dpy screen w).2.calls = keyboardAttempts w.calls) ∧
    (∀ kp, FirstSuccessAt (env.grabPointer screen) kp →
      (Exhausted (env.grabKeyboard screen) →
        keyboardAttempts (lockscreen env dpy screen w).2.calls =
          keyboardAttempts w.calls + 1000) ∧
      (∀ kk, FirstSuccessAt (env.grabKeyboard screen) kk →
        keyboardAttempts (lockscreen env dpy screen w).2.calls =
          keyboardAttempts w.calls + (kk + 1))) := by
  refine ⟨?_, ?_⟩
  · intro hp
    rw [lockscreen_pointer_fail env dpy screen w h hp]
    simp [keyboardAttempts_append, keyboardAttempts_setup, keyboardAttempts_retry_pointer,
      keyboardAttempts_release]
  · intro kp hp
    refine ⟨?_, ?_⟩
    · intro hk
      rw [lockscreen_keyboard_fail env dpy screen w kp h hp hk]
      simp [keyboardAttempts_append, keyboardAttempts_pointerCalls,
        keyboardAttempts_retry_keyboard, keyboardAttempts_release]
    · intro kk hk
      rw [lockscreen_success env dpy screen w kp kk h hp hk]
      simp [keyboardAttempts_append, keyboardAttempts_pointerCalls,
        keyboardAttempts_retry_keyboard]
      simp [keyboardAttempts, List.countP_cons]

theorem first_of_unbounded {res : Nat → Int} {k : Nat} (hk : res k = GrabSuccess)
    (hbefore : ∀ a < k, res a ≠ GrabSuccess) :
    (k < 1000 ∧ FirstSuccessAt res k) ∨ (1000 ≤ k ∧ Exhausted res) := by
  by_cases h : k < 1000
  · exact Or.inl ⟨h, h, hk, hbefore⟩
  · exact Or.inr ⟨by omega, fun a ha => hbefore a (by omega)⟩

/-- C6: a call of `lockscreen` that passes its first condition (run flag
true, display not null, screen not negative, `malloc` succeeds) retries
`XGrabPointer` until the first `GrabSuccess` or until 1000 attempts have
failed, with `usleep(1000)` after each failed attempt: if the first success in
the sequence of results is at position `k + 1` (counted from 1) it makes
exactly `min (k + 1) 1000` attempts, and 1000 if there is none; it reports the
pointer failure iff the first 1000 results all fail (so a success on the
1000th attempt is a success), and then makes no keyboard attempt.  After a
pointer success the keyboard loop follows the same policy: `min (k + 1) 1000`
attempts, 1000 without a success, and the guard is returned iff one of the
first 1000 results is a success. -/
theorem lockscreen_bounded_retry (env : Env) (dpy : DisplayPtr) (screen : Int) (w : World)
    (h : Enters env dpy screen w) :
    (∀ k, env.grabPointer screen k = GrabSuccess →
      (∀ a < k, env.grabPointer screen a ≠ GrabSuccess) →
      pointerAttempts (lockscreen env dpy screen w).2.calls =
        pointerAttempts w.calls + min (k + 1) 1000) ∧
    ((∀ a, env.grabPointer screen a ≠ GrabSuccess) →
      pointerAttempts (lockscreen env dpy screen w).2.calls = pointerAttempts w.calls + 1000) ∧
    ((lockscreen env dpy screen w).2.stderr = w.stderr ++ [Msg.pointerGrabFailed screen] ↔
      Exhausted (env.grabPointer screen)) ∧
    (Exhausted (env.grabPointer screen) →
      (lockscreen env dpy screen w).1 = none ∧
      (lockscreen env dpy screen w).2.calls =
        w.calls ++ (setupCalls env screen w.nextId ++
          retryCalls (Call.grabPointer (env.root screen) (w.nextId + 2)) 1000 ++
          releaseCalls (lockOf env screen w.nextId)) ∧
      keyboardAttempts (lockscreen env dpy screen w).2.calls = keyboardAttempts w.calls) ∧
    (∀ kp, FirstSuccessAt (env.grabPointer screen) kp →
      (∀ k, env.grabKeyboard screen k = GrabSuccess →
        (∀ a < k, env.grabKeyboard screen a ≠ GrabSuccess) →
        keyboardAttempts (lockscreen env dpy screen w).2.calls =
          keyboardAttempts w.calls + min (k + 1) 1000) ∧
      ((∀ a, env.grabKeyboard screen a ≠ GrabSuccess) →
        keyboardAttempts (lockscreen env dpy screen w).2.calls =
          keyboardAttempts w.calls + 1000) ∧
      ((lockscreen env dpy screen w).1 ≠ none ↔ ¬ Exhausted (env.grabKeyboard screen)) ∧
      (Exhausted (env.grabKeyboard screen) →
        (lockscreen env dpy screen w).2.calls =
          w.calls ++ (setupCalls env screen w.nextId ++
            retryCalls (Call.grabPointer (env.root screen) (w.nextId + 2)) kp ++
            [Call.grabPointer (env.root screen) (w.nextId + 2)] ++
            retryCalls (Call.grabKeyboard (env.root screen)) 1000 ++
            releaseCalls (lockOf env screen w.nextId)) ∧
        (lockscreen env dpy screen w).2.stderr =
          w.stderr ++ [Msg.keyboardGrabFailed screen]) ∧
      (∀ kk, FirstSuccessAt (env.grabKeyboard screen) kk →
        (lockscreen env dpy screen w).2.calls =
          w.calls ++ (setupCalls env screen w.nextId ++
            retryCalls (Call.grabPointer (env.root screen) (w.nextId + 2)) kp ++
            [Call.grabPointer (env.root screen) (w.nextId + 2)] ++
            retryCalls (Call.grabKeyboard (env.root screen)) kk ++
            [Call.grabKeyboard (env.root screen), Call.selectInput (env.root screen)]) ∧
        (lockscreen env dpy screen w).2.stderr = w.stderr)) := by
  have hpa := lockscreen_pointerAttempts env dpy screen w h
  have hka := lockscreen_keyboardAttempts env dpy screen w h
  refine ⟨?_, ?_, ?_, ?_, ?_⟩
  · intro k hk hbefore
    rcases first_of_unbounded hk hbefore with ⟨hlt, hf⟩ | ⟨hge, he⟩
    · rw [hpa.2 k hf, Nat.min_eq_left (by omega)]
    · rw [hpa.1 he, Nat.min_eq_right (by omega)]
  · intro hnone
    exact hpa.1 (fun a _ => hnone a)
  · constructor
    · intro hs
      rcases exhausted_or_first (env.grabPointer screen) with hp | ⟨kp, hp⟩
      · exact hp
      · exfalso
        rcases exhausted_or_first (env.grabKeyboard screen) with hk | ⟨kk, hk⟩
        · rw [lockscreen_keyboard_fail env dpy screen w kp h hp hk] at hs
          simp at hs
        · rw [lockscreen_success env dpy screen w kp kk h hp hk] at hs
          simp at hs
    · intro hp
      rw [lockscreen_pointer_fail env dpy screen w h hp]
  · intro hp
    refine ⟨?_, ?_, hka.1 hp⟩
    · rw [lockscreen_pointer_fail env dpy screen w h hp]
    · rw [lockscreen_pointer_fail env dpy screen w h hp]
  · intro kp hp
    refine ⟨?_, ?_, ?_, ?_, ?_⟩
    · intro k hk hbefore
      rcases first_of_unbounded hk hbefore with ⟨hlt, hf⟩ | ⟨hge, he⟩
      · rw [(hka.2 kp hp).2 k hf, Nat.min_eq_left (by omega)]
      · rw [(hka.2 kp hp).1 he, Nat.min_eq_right (by omega)]
    · intro hnone
      exact (hka.2 kp hp).1 (fun a _ => hnone a)
    · constructor
      · intro hne he
        rw [lockscreen_keyboard_fail env dpy screen w kp h hp he] at hne
        exact hne rfl
      · intro hne
        rcases exhausted_or_first (env.grabKeyboard screen) with hk | ⟨kk, hk⟩
        · exact absurd hk hne
        · rw [lockscreen_success env dpy screen w kp kk h hp hk]
          simp
    · intro hk
      rw [lockscreen_keyboard_fail env dpy screen w kp h hp hk]
      simp [pointerCalls]
    · intro kk hk
      rw [lockscreen_success env dpy screen w kp kk h hp hk]
      simp [pointerCalls]

/-- Witness for C6: on screen 0 the pointer is grabbed at the third attempt and
the keyboard at once; three pointer attempts and one keyboard attempt are
made. -/
theorem lockscreen_bounded_retry_witness :
    Enters (sampleEnv 1 (fun _ a => if a < 2 then 1 else 0) grabsAtOnce sampleEvents)
      (some ()) 0
      (World.opened (sampleEnv 1 (fun _ a => if a < 2 then 1 else 0) grabsAtOnce sampleEvents)) ∧
    pointerAttempts (lockscreen
      (sampleEnv 1 (fun _ a => if a < 2 then 1 else 0) grabsAtOnce sampleEvents) (some ()) 0
      (World.opened (sampleEnv 1 (fun _ a => if a < 2 then 1 else 0) grabsAtOnce
        sampleEvents))).2.calls = 3 ∧
    keyboardAttempts (lockscreen
      (sampleEnv 1 (fun _ a => if a < 2 then 1 else 0) grabsAtOnce sampleEvents) (some ()) 0
      (World.opened (sampleEnv 1 (fun _ a => if a < 2 then 1 else 0) grabsAtOnce
        sampleEvents))).2.calls = 1 := by
  have hen : Enters (sampleEnv 1 (fun _ a => if a < 2 then 1 else 0) grabsAtOnce sampleEvents)
      (some ()) 0
      (World.opened (sampleEnv 1 (fun _ a => if a < 2 then 1 else 0) grabsAtOnce
        sampleEvents)) := by decide
  have h := lockscreen_bounded_retry _ _ _ _ hen
  refine ⟨hen, ?_, ?_⟩
  · have h1 := h.1 2 (by decide) (by decide)
    simpa [pointerAttempts, World.opened, World.start] using h1
  · have h2 := (h.2.2.2.2 2 (by decide)).1 0 (by decide) (by decide)
    simpa [keyboardAttempts, World.opened, World.start] using h2

/-- Counterexample to C2 as stated: one screen, no pointer grab ever succeeds,
nothing is allocated before the call.  When `lockscreen` returns, the cursor it
created (identifier 102) is still allocated: nothing frees it. -/
theorem lockscreen_pointer_fail_leaves_cursor :
    Enters (sampleEnv 1 grabsNever grabsAtOnce sampleEvents) (some ()) 0
      (World.opened (sampleEnv 1 grabsNever grabsAtOnce sampleEvents)) ∧
    Exhausted ((sampleEnv 1 grabsNever grabsAtOnce sampleEvents).grabPointer 0) ∧
    (World.opened (sampleEnv 1 grabsNever grabsAtOnce sampleEvents)).cursors = [] ∧
    (lockscreen (sampleEnv 1 grabsNever grabsAtOnce sampleEvents) (some ()) 0
      (World.opened (sampleEnv 1 grabsNever grabsAtOnce sampleEvents))).2.cursors = [102] := by
  have hen : Enters (sampleEnv 1 grabsNever grabsAtOnce sampleEvents) (some ()) 0
      (World.opened (sampleEnv 1 grabsNever grabsAtOnce sampleEvents)) := by decide
  have hex : Exhausted ((sampleEnv 1 grabsNever grabsAtOnce sampleEvents).grabPointer 0) := by
    intro a _
    simp [sampleEnv, grabsNever, GrabSuccess]
  refine ⟨hen, hex, rfl, ?_⟩
  rw [lockscreen_pointer_fail _ _ _ _ hen hex]
  simp [World.opened, World.start, sampleEnv]

/-- C2, amended: when the pointer grab of a call of `lockscreen` fails (the
call passes its first condition and none of the 1000 results is
`GrabSuccess`), the call returns `NULL`, and on return the client holds the
same colour cells, windows, mapped windows and pixmaps as before the call and
as many `malloc` blocks: the colours, the window and the pixmap it allocated
are freed again.  `XGrabKeyboard` was never called.  The cursor made by
`XCreatePixmapCursor` is not freed: it stays allocated. -/
theorem lockscreen_pointer_fail_rollback (env : Env) (dpy : DisplayPtr) (screen : Int)
    (w : World) (h : Enters env dpy screen w) (hp : Exhausted (env.grabPointer screen)) :
    (lockscreen env dpy screen w).1 = none ∧
    (lockscreen env dpy screen w).2.colors = w.colors ∧
    (lockscreen env dpy screen w).2.windows = w.windows ∧
    (lockscreen env dpy screen w).2.mapped = w.mapped ∧
    (lockscreen env dpy screen w).2.pixmaps = w.pixmaps ∧
    (lockscreen env dpy screen w).2.heap = w.heap ∧
    keyboardAttempts (lockscreen env dpy screen w).2.calls = keyboardAttempts w.calls ∧
    (lockscreen env dpy screen w).2.cursors = (w.nextId + 2) :: w.cursors := by
  have hk := (lockscreen_keyboardAttempts env dpy screen w h).1 hp
  rw [lockscreen_pointer_fail env dpy screen w h hp] at hk ⊢
  exact ⟨rfl, rfl, rfl, rfl, rfl, rfl, hk, rfl⟩

/-- Witness for C2, amended: screen 0 of the sample display, no pointer grab
ever succeeds. -/
theorem lockscreen_pointer_fail_rollback_witness :
    Enters (sampleEnv 1 grabsNever grabsAtOnce sampleEvents) (some ()) 0
      (World.opened (sampleEnv 1 grabsNever grabsAtOnce sampleEvents)) ∧
    Exhausted ((sampleEnv 1 grabsNever grabsAtOnce sampleEvents).grabPointer 0) ∧
    (lockscreen (sampleEnv 1 grabsNever grabsAtOnce sampleEvents) (some ()) 0
      (World.opened (sampleEnv 1 grabsNever grabsAtOnce sampleEvents))).2.windows = [] ∧
    (lockscreen (sampleEnv 1 grabsNever grabsAtOnce sampleEvents) (some ()) 0
      (World.opened (sampleEnv 1 grabsNever grabsAtOnce sampleEvents))).2.colors = [] := by
  have hen : Enters (sampleEnv 1 grabsNever grabsAtOnce sampleEvents) (some ()) 0
      (World.opened (sampleEnv 1 grabsNever grabsAtOnce sampleEvents)) := by decide
  have hex : Exhausted ((sampleEnv 1 grabsNever grabsAtOnce sampleEvents).grabPointer 0) := by
    intro a _
    simp [sampleEnv, grabsNever, GrabSuccess]
  have h := lockscreen_pointer_fail_rollback _ _ _ _ hen hex
  exact ⟨hen, hex, h.2.2.1, h.2.1⟩

theorem unlockLoop_calls (locks : List (Option Lock)) (w : World) :
    (unlockLoop (some ()) locks w).calls = w.calls ++ releaseAllCalls locks := by
  induction locks generalizing w with
  | nil => simp [unlockLoop, releaseAllCalls]
  | cons l rest ih =>
    cases l with
    | none => simp [unlockLoop, unlockscreen, releaseAllCalls, ih]
    | some l =>
      simp only [unlockLoop, releaseAllCalls]
      rw [ih, unlockscreen_some]
      simp

theorem lookup_filter_ne (q : Nat) :
    ∀ (blocks : List (Nat × Lock)) (p : Nat),
      (blocks.filter (fun b => b.1 != q)).lookup p =
        if p = q then none else blocks.lookup p := by
  intro blocks
  induction blocks with
  | nil => intro p; simp
  | cons b rest ih =>
    intro p
    obtain ⟨k, l⟩ := b
    by_cases hk : k = q
    · subst hk
      by_cases hp : p = k
      · subst hp
        simp [List.filter_cons, ih]
      · have hpk : (p == k) = false := by simpa using hp
        simp [List.filter_cons, ih, List.lookup_cons, hp, hpk]
    · have hkq : (k != q) = true := by simpa using hk
      by_cases hp : p = k
      · subst hp
        simp [List.filter_cons, hkq, List.lookup_cons, hk]
      · have hpk : (p == k) = false := by simpa using hp
        simp [List.filter_cons, hkq, List.lookup_cons, hpk, ih]

theorem unlockLoopPtr_undefined (dpy : DisplayPtr) (ptrs : List Nat) (w : World) :
    unlockLoopPtr dpy ptrs (Released.undefined w) = Released.undefined w := by
  cases ptrs <;> rfl

theorem unlockscreenPtr_null (dpy : DisplayPtr) (p : Nat) (m : Mem)
    (h : dpy = none ∨ p = 0) : unlockscreenPtr dpy p m = Released.done m := by
  rcases h with h | h
  · subst h; simp [unlockscreenPtr]
  · subst h; simp [unlockscreenPtr]

theorem unlockscreenPtr_dangling (p : Nat) (m : Mem) (hp : p ≠ 0)
    (hdead : m.blocks.lookup p = none) :
    unlockscreenPtr (some ()) p m = Released.undefined (XUngrabPointer m.world) := by
  simp [unlockscreenPtr, hp, hdead]

theorem unlockscreenPtr_live (p : Nat) (l : Lock) (m : Mem) (hp : p ≠ 0)
    (hlive : m.blocks.lookup p = some l) :
    unlockscreenPtr (some ()) p m =
      Released.done { world := unlockscreen (some ()) (some l) m.world,
                      blocks := m.blocks.filter (fun b => b.1 != p) } := by
  simp [unlockscreenPtr, hp, hlive, unlockscreen]

theorem unlockLoopPtr_all_null (dpy : DisplayPtr) (ptrs : List Nat) (m : Mem)
    (h : dpy = none ∨ ∀ p ∈ ptrs, p = 0) :
    unlockLoopPtr dpy ptrs (Released.done m) = Released.done m := by
  induction ptrs with
  | nil => rfl
  | cons p rest ih =>
    have hp : dpy = none ∨ p = 0 := by
      rcases h with h | h
      · exact Or.inl h
      · exact Or.inr (h p (by simp))
    simp only [unlockLoopPtr, unlockscreenPtr_null dpy p m hp]
    exact ih (by
      rcases h with h | h
      · exact Or.inl h
      · exact Or.inr (fun q hq => h q (by simp [hq])))

/-- After a run of the unlock loop that went through, no block has become live
and every address of `locks` that is not `NULL` points to a freed block. -/
theorem unlockLoopPtr_done_frees (ptrs : List Nat) :
    ∀ (m m1 : Mem), unlockLoopPtr (some ()) ptrs (Released.done m) = Released.done m1 →
      (∀ p, m.blocks.lookup p = none → m1.blocks.lookup p = none) ∧
      ∀ p ∈ ptrs, p ≠ 0 → m1.blocks.lookup p = none := by
  induction ptrs with
  | nil =>
    intro m m1 h
    have hm : m = m1 := by simpa [unlockLoopPtr] using h
    subst hm
    exact ⟨fun _ hp => hp, fun p hp => by simp at hp⟩
  | cons q rest ih =>
    intro m m1 h
    simp only [unlockLoopPtr] at h
    by_cases hq : q = 0
    · rw [unlockscreenPtr_null (some ()) q m (Or.inr hq)] at h
      obtain ⟨h1, h2⟩ := ih m m1 h
      refine ⟨h1, fun p hp hp0 => ?_⟩
      rcases List.mem_cons.1 hp with hpq | hpr
      · exact absurd (hpq ▸ hq) hp0
      · exact h2 p hpr hp0
    · cases hl : m.blocks.lookup q with
      | none =>
        rw [unlockscreenPtr_dangling q m hq hl, unlockLoopPtr_undefined] at h
        cases h
      | some l =>
        rw [unlockscreenPtr_live q l m hq hl] at h
        obtain ⟨h1, h2⟩ := ih _ m1 h
        have hmono : ∀ p, m.blocks.lookup p = none → m1.blocks.lookup p = none := by
          intro p hp
          apply h1
          show (m.blocks.filter (fun b => b.1 != q)).lookup p = none
          rw [lookup_filter_ne]
          split
          · rfl
          · exact hp
        refine ⟨hmono, fun p hp hp0 => ?_⟩
        rcases List.mem_cons.1 hp with hpq | hpr
        · subst hpq
          apply h1
          show (m.blocks.filter (fun b => b.1 != p)).lookup p = none
          rw [lookup_filter_ne]
          simp
        · exact h2 p hpr hp0

/-- A run of the unlock loop in which every address that is not `NULL` points
to a freed block, and there is one: for the first of them `unlockscreen` calls
`XUngrabPointer` and then reads the freed block. -/
theorem unlockLoopPtr_dangling (ptrs : List Nat) (m : Mem)
    (hdead : ∀ p ∈ ptrs, p ≠ 0 → m.blocks.lookup p = none) (hex : ∃ p ∈ ptrs, p ≠ 0) :
    unlockLoopPtr (some ()) ptrs (Released.done m) =
      Released.undefined (XUngrabPointer m.world) := by
  induction ptrs with
  | nil =>
    obtain ⟨p, hp, _⟩ := hex
    simp at hp
  | cons q rest ih =>
    simp only [unlockLoopPtr]
    by_cases hq : q = 0
    · rw [unlockscreenPtr_null (some ()) q m (Or.inr hq)]
      apply ih (fun p hp hp0 => hdead p (by simp [hp]) hp0)
      obtain ⟨p, hp, hp0⟩ := hex
      rcases List.mem_cons.1 hp with hpq | hpr
      · exact absurd (hpq ▸ hq) hp0
      · exact ⟨p, hpr, hp0⟩
    · rw [unlockscreenPtr_dangling q m hq (hdead q (by simp) hq), unlockLoopPtr_undefined]

theorem layout_addresses :
    ∀ (locks : List (Option Lock)) (base : Nat), ∀ b ∈ (layout base locks).2, base < b.1 := by
  intro locks
  induction locks with
  | nil => intro base b hb; simp [layout] at hb
  | cons l rest ih =>
    intro base b hb
    cases l with
    | none =>
      simp only [layout] at hb
      exact Nat.lt_of_succ_lt (ih (base + 1) b hb)
    | some l =>
      simp only [layout, List.mem_cons] at hb
      rcases hb with hb | hb
      · subst hb; exact Nat.lt_succ_self base
      · exact Nat.lt_of_succ_lt (ih (base + 1) b hb)

/-- On the heap laid out for `locks`, where every entry that is not `NULL`
points to a live block, the unlock loop over the addresses goes through, does
what `unlockLoop` does, and leaves no block. -/
theorem unlockLoopPtr_layout :
    ∀ (locks : List (Option Lock)) (base : Nat) (w : World),
      unlockLoopPtr (some ()) (layout base locks).1
          (Released.done { world := w, blocks := (layout base locks).2 }) =
        Released.done { world := unlockLoop (some ()) locks w, blocks := [] } := by
  intro locks
  induction locks with
  | nil => intro base w; rfl
  | cons l rest ih =>
    intro base w
    cases l with
    | none =>
      simp only [layout, unlockLoopPtr, unlockLoop]
      rw [unlockscreenPtr_null (some ()) 0 _ (Or.inr rfl)]
      simpa [unlockscreen] using ih (base + 1) w
    | some l =>
      simp only [layout, unlockLoopPtr, unlockLoop]
      rw [unlockscreenPtr_live (base + 1) l _ (by omega) (by simp [List.lookup_cons])]
      have hf : ((base + 1, l) :: (layout (base + 1) rest).2).filter
          (fun b => b.1 != base + 1) = (layout (base + 1) rest).2 := by
        rw [List.filter_cons]
        simp only [bne_self_eq_false, Bool.false_eq_true, if_false]
        apply List.filter_eq_self.2
        intro b hb
        have := layout_addresses rest (base + 1) b hb
        simp only [bne_iff_ne, ne_eq]
        omega
      simp only [hf]
      exact ih (base + 1) _

/-- Counterexample to C3 as stated: one screen, every grab succeeds at once; the
guard is stored at address 1.  The first run of the release loop goes through
and frees the block.  The second run on the same `locks` calls `XUngrabPointer`
again and then reads the freed `Lock`: it issues a further display operation
and its behaviour is undefined, so it is no no-op. -/
theorem release_twice_uses_freed_lock :
    (layout 0 (lockAll (sampleEnv 1 grabsAtOnce grabsAtOnce sampleEvents) (some ()) 1
      (World.opened (sampleEnv 1 grabsAtOnce grabsAtOnce sampleEvents))).locks) =
      ([1], [(1, { screen := 0, root := 1, win := 100, pmap := 101, colors := [0, 1, 2] })]) ∧
    unlockLoopPtr (some ()) [1]
      (Released.done
        { world := (lockAll (sampleEnv 1 grabsAtOnce grabsAtOnce sampleEvents) (some ()) 1
            (World.opened (sampleEnv 1 grabsAtOnce grabsAtOnce sampleEvents))).world,
          blocks :=
            [(1, { screen := 0, root := 1, win := 100, pmap := 101, colors := [0, 1, 2] })] }) =
      Released.done
        { world := unlockLoop (some ())
            (lockAll (sampleEnv 1 grabsAtOnce grabsAtOnce sampleEvents) (some ()) 1
              (World.opened (sampleEnv 1 grabsAtOnce grabsAtOnce sampleEvents))).locks
            (lockAll (sampleEnv 1 grabsAtOnce grabsAtOnce sampleEvents) (some ()) 1
              (World.opened (sampleEnv 1 grabsAtOnce grabsAtOnce sampleEvents))).world,
          blocks := [] } ∧
    unlockLoopPtr (some ()) [1]
      (Released.done
        { world := unlockLoop (some ())
            (lockAll (sampleEnv 1 grabsAtOnce grabsAtOnce sampleEvents) (some ()) 1
              (World.opened (sampleEnv 1 grabsAtOnce grabsAtOnce sampleEvents))).locks
            (lockAll (sampleEnv 1 grabsAtOnce grabsAtOnce sampleEvents) (some ()) 1
              (World.opened (sampleEnv 1 grabsAtOnce grabsAtOnce sampleEvents))).world,
          blocks := [] }) =
      Released.undefined
        (XUngrabPointer (unlockLoop (some ())
          (lockAll (sampleEnv 1 grabsAtOnce grabsAtOnce sampleEvents) (some ()) 1
            (World.opened (sampleEnv 1 grabsAtOnce grabsAtOnce sampleEvents))).locks
          (lockAll (sampleEnv 1 grabsAtOnce grabsAtOnce sampleEvents) (some ()) 1
            (World.opened (sampleEnv 1 grabsAtOnce grabsAtOnce sampleEvents))).world)) := by
  have hl : (lockAll (sampleEnv 1 grabsAtOnce grabsAtOnce sampleEvents) (some ()) 1
      (World.opened (sampleEnv 1 grabsAtOnce grabsAtOnce sampleEvents))).locks =
      [some { screen := 0, root := 1, win := 100, pmap := 101, colors := [0, 1, 2] }] := by
    decide
  have hlay := unlockLoopPtr_layout
    (lockAll (sampleEnv 1 grabsAtOnce grabsAtOnce sampleEvents) (some ()) 1
      (World.opened (sampleEnv 1 grabsAtOnce grabsAtOnce sampleEvents))).locks 0
    (lockAll (sampleEnv 1 grabsAtOnce grabsAtOnce sampleEvents) (some ()) 1
      (World.opened (sampleEnv 1 grabsAtOnce grabsAtOnce sampleEvents))).world
  refine ⟨by rw [hl]; rfl, ?_, ?_⟩
  · rw [hl] at hlay ⊢
    exact hlay
  · exact unlockLoopPtr_dangling [1] _ (fun p _ _ => rfl) ⟨1, by simp, by decide⟩

/-- C3, amended: `unlockscreen` is a no-op when the display or the guard
pointer is `NULL` (the entry of a screen that was not acquired).  It frees the
guard but does not clear the entry of `locks`, so a guard that is already
released is not recognised: called on it, `unlockscreen` calls
`XUngrabPointer` and then reads the freed `Lock`, which is undefined behaviour.
Hence, after a first run of the release loop that went through, a second run on
the same `locks` is a no-op exactly when the display is `NULL` or every entry
is `NULL`; with an entry that is not `NULL` it calls `XUngrabPointer` again and
then reads a freed `Lock`.  (`main` runs the loop once.) -/
theorem release_idempotent_iff_all_null (dpy : DisplayPtr) (ptrs : List Nat) (m m1 : Mem)
    (hfirst : unlockLoopPtr dpy ptrs (Released.done m) = Released.done m1) :
    (∀ p m0, dpy = none ∨ p = 0 → unlockscreenPtr dpy p m0 = Released.done m0) ∧
    (∀ p, p ∈ ptrs → p ≠ 0 → dpy = some () →
      unlockscreenPtr dpy p m1 = Released.undefined (XUngrabPointer m1.world)) ∧
    (unlockLoopPtr dpy ptrs (Released.done m1) = Released.done m1 ↔
      dpy = none ∨ ∀ p ∈ ptrs, p = 0) ∧
    (dpy = some () → (∃ p ∈ ptrs, p ≠ 0) →
      unlockLoopPtr dpy ptrs (Released.done m1) =
        Released.undefined (XUngrabPointer m1.world)) := by
  have hsecond : dpy = some () → (∃ p ∈ ptrs, p ≠ 0) →
      unlockLoopPtr dpy ptrs (Released.done m1) =
        Released.undefined (XUngrabPointer m1.world) := by
    intro hd hex
    subst hd
    exact unlockLoopPtr_dangling ptrs m1 (unlockLoopPtr_done_frees ptrs m m1 hfirst).2 hex
  refine ⟨fun p m0 h => unlockscreenPtr_null dpy p m0 h, ?_, ?_, hsecond⟩
  · intro p hp hp0 hd
    subst hd
    exact unlockscreenPtr_dangling p m1 hp0
      ((unlockLoopPtr_done_frees ptrs m m1 hfirst).2 p hp hp0)
  · constructor
    · intro heq
      cases dpy with
      | none => exact Or.inl rfl
      | some u =>
        right
        by_contra hne
        have hex : ∃ p ∈ ptrs, p ≠ 0 := by
          by_contra hno
          exact hne (fun p hp => by
            by_contra hp0
            exact hno ⟨p, hp, hp0⟩)
        rw [hsecond rfl hex] at heq
        cases heq
    · intro h
      exact unlockLoopPtr_all_null dpy ptrs m1 h

/-- Witness for C3, amended: two screens, both acquired at once, the guards at
addresses 1 and 2.  The first run of the release loop goes through; the second
run calls `XUngrabPointer` and then reads the freed `Lock` of screen 0. -/
theorem release_idempotent_iff_all_null_witness :
    unlockLoopPtr (some ())
      (layout 0 (lockAll (sampleEnv 2 grabsAtOnce grabsAtOnce sampleEvents) (some ()) 2
        (World.opened (sampleEnv 2 grabsAtOnce grabsAtOnce sampleEvents))).locks).1
      (Released.done
        { world := (lockAll (sampleEnv 2 grabsAtOnce grabsAtOnce sampleEvents) (some ()) 2
            (World.opened (sampleEnv 2 grabsAtOnce grabsAtOnce sampleEvents))).world,
          blocks := (layout 0 (lockAll (sampleEnv 2 grabsAtOnce grabsAtOnce sampleEvents)
            (some ()) 2
            (World.opened (sampleEnv 2 grabsAtOnce grabsAtOnce sampleEvents))).locks).2 }) =
      Released.done
        { world := unlockLoop (some ())
            (lockAll (sampleEnv 2 grabsAtOnce grabsAtOnce sampleEvents) (some ()) 2
              (World.opened (sampleEnv 2 grabsAtOnce grabsAtOnce sampleEvents))).locks
            (lockAll (sampleEnv 2 grabsAtOnce grabsAtOnce sampleEvents) (some ()) 2
              (World.opened (sampleEnv 2 grabsAtOnce grabsAtOnce sampleEvents))).world,
          blocks := [] } ∧
    (layout 0 (lockAll (sampleEnv 2 grabsAtOnce grabsAtOnce sampleEvents) (some ()) 2
      (World.opened (sampleEnv 2 grabsAtOnce grabsAtOnce sampleEvents))).locks).1 = [1, 2] ∧
    unlockLoopPtr (some ())
      (layout 0 (lockAll (sampleEnv 2 grabsAtOnce grabsAtOnce sampleEvents) (some ()) 2
        (World.opened (sampleEnv 2 grabsAtOnce grabsAtOnce sampleEvents))).locks).1
      (Released.done
        { world := unlockLoop (some ())
            (lockAll (sampleEnv 2 grabsAtOnce grabsAtOnce sampleEvents) (some ()) 2
              (World.opened (sampleEnv 2 grabsAtOnce grabsAtOnce sampleEvents))).locks
            (lockAll (sampleEnv 2 grabsAtOnce grabsAtOnce sampleEvents) (some ()) 2
              (World.opened (sampleEnv 2 grabsAtOnce grabsAtOnce sampleEvents))).world,
          blocks := [] }) =
      Released.undefined
        (XUngrabPointer (unlockLoop (some ())
          (lockAll (sampleEnv 2 grabsAtOnce grabsAtOnce sampleEvents) (some ()) 2
            (World.opened (sampleEnv 2 grabsAtOnce grabsAtOnce sampleEvents))).locks
          (lockAll (sampleEnv 2 grabsAtOnce grabsAtOnce sampleEvents) (some ()) 2
            (World.opened (sampleEnv 2 grabsAtOnce grabsAtOnce sampleEvents))).world)) := by
  have hfirst := unlockLoopPtr_layout
    (lockAll (sampleEnv 2 grabsAtOnce grabsAtOnce sampleEvents) (some ()) 2
      (World.opened (sampleEnv 2 grabsAtOnce grabsAtOnce sampleEvents))).locks 0
    (lockAll (sampleEnv 2 grabsAtOnce grabsAtOnce sampleEvents) (some ()) 2
      (World.opened (sampleEnv 2 grabsAtOnce grabsAtOnce sampleEvents))).world
  have hptrs : (layout 0 (lockAll (sampleEnv 2 grabsAtOnce grabsAtOnce sampleEvents)
      (some ()) 2
      (World.opened (sampleEnv 2 grabsAtOnce grabsAtOnce sampleEvents))).locks).1 = [1, 2] := by
    decide
  have h := (release_idempotent_iff_all_null (some ()) _ _ _ hfirst).2.2.2 rfl
    ⟨1, by rw [hptrs]; simp, by decide⟩
  exact ⟨hfirst, hptrs, h⟩

/-- Counterexample to C5 as stated: one screen, every grab succeeds at once, so
the guard is fully acquired.  After `unlockscreen` of that guard the keyboard
grab on root window 1 is still held and the cursor 102 is still allocated. -/
theorem release_keeps_keyboard_grab :
    (lockscreen (sampleEnv 1 grabsAtOnce grabsAtOnce sampleEvents) (some ()) 0
      (World.opened (sampleEnv 1 grabsAtOnce grabsAtOnce sampleEvents))).1 =
      some { screen := 0, root := 1, win := 100, pmap := 101, colors := [0, 1, 2] } ∧
    (unlockscreen (some ())
      (lockscreen (sampleEnv 1 grabsAtOnce grabsAtOnce sampleEvents) (some ()) 0
        (World.opened (sampleEnv 1 grabsAtOnce grabsAtOnce sampleEvents))).1
      (lockscreen (sampleEnv 1 grabsAtOnce grabsAtOnce sampleEvents) (some ()) 0
        (World.opened (sampleEnv 1 grabsAtOnce grabsAtOnce sampleEvents))).2).keyboardGrab =
      some 1 ∧
    (unlockscreen (some ())
      (lockscreen (sampleEnv 1 grabsAtOnce grabsAtOnce sampleEvents) (some ()) 0
        (World.opened (sampleEnv 1 grabsAtOnce grabsAtOnce sampleEvents))).1
      (lockscreen (sampleEnv 1 grabsAtOnce grabsAtOnce sampleEvents) (some ()) 0
        (World.opened (sampleEnv 1 grabsAtOnce grabsAtOnce sampleEvents))).2).cursors =
      [102] := by
  decide

/-- C5, amended: when a call of `lockscreen` that passed its first condition
returns, either it returns the guard, whose window exists and is mapped, whose
pixmap exists, and on whose root window the client holds both the pointer grab
and the keyboard grab; or it returns `NULL` with `running` cleared, the
colours, window and pixmap it allocated freed again and the pointer grab
released (also when only the keyboard grab was exhausted), while the cursor it
created stays allocated and the keyboard grab is as before the call.
`unlockscreen` of a guard just acquired frees its colours, window and pixmap
and releases the pointer grab, but the keyboard grab stays held and the cursor
stays allocated: the program calls neither `XUngrabKeyboard` nor
`XFreeCursor`. -/
theorem lockscreen_guard_states (env : Env) (dpy : DisplayPtr) (screen : Int) (w : World)
    (h : Enters env dpy screen w) :
    (∀ l, (lockscreen env dpy screen w).1 = some l →
      (l.win ∈ (lockscreen env dpy screen w).2.windows ∧
       l.win ∈ (lockscreen env dpy screen w).2.mapped ∧
       l.pmap ∈ (lockscreen env dpy screen w).2.pixmaps ∧
       (lockscreen env dpy screen w).2.pointerGrab = some l.root ∧
       (lockscreen env dpy screen w).2.keyboardGrab = some l.root ∧
       (lockscreen env dpy screen w).2.running = true) ∧
      ((unlockscreen dpy (some l) (lockscreen env dpy screen w).2).colors = w.colors ∧
       (unlockscreen dpy (some l) (lockscreen env dpy screen w).2).windows = w.windows ∧
       (unlockscreen dpy (some l) (lockscreen env dpy screen w).2).mapped = w.mapped ∧
       (unlockscreen dpy (some l) (lockscreen env dpy screen w).2).pixmaps = w.pixmaps ∧
       (unlockscreen dpy (some l) (lockscreen env dpy screen w).2).pointerGrab = none ∧
       (unlockscreen dpy (some l) (lockscreen env dpy screen w).2).keyboardGrab =
         some l.root ∧
       (unlockscreen dpy (some l) (lockscreen env dpy screen w).2).cursors =
         (w.nextId + 2) :: w.cursors)) ∧
    ((lockscreen env dpy screen w).1 = none →
      (lockscreen env dpy screen w).2.running = false ∧
      (lockscreen env dpy screen w).2.colors = w.colors ∧
      (lockscreen env dpy screen w).2.windows = w.windows ∧
      (lockscreen env dpy screen w).2.mapped = w.mapped ∧
      (lockscreen env dpy screen w).2.pixmaps = w.pixmaps ∧
      (lockscreen env dpy screen w).2.pointerGrab = none ∧
      (lockscreen env dpy screen w).2.keyboardGrab = w.keyboardGrab ∧
      (lockscreen env dpy screen w).2.cursors = (w.nextId + 2) :: w.cursors) := by
  have hd : dpy = some () := h.2.1
  have hrun : w.running = true := h.1
  rcases exhausted_or_first (env.grabPointer screen) with hp | ⟨kp, hp⟩
  · rw [lockscreen_pointer_fail env dpy screen w h hp]
    refine ⟨fun l hl => by simp at hl, fun _ => ⟨rfl, rfl, rfl, rfl, rfl, rfl, rfl, rfl⟩⟩
  · rcases exhausted_or_first (env.grabKeyboard screen) with hk | ⟨kk, hk⟩
    · rw [lockscreen_keyboard_fail env dpy screen w kp h hp hk]
      refine ⟨fun l hl => by simp at hl, fun _ => ⟨rfl, rfl, rfl, rfl, rfl, rfl, rfl, rfl⟩⟩
    · rw [lockscreen_success env dpy screen w kp kk h hp hk]
      refine ⟨?_, fun hn => by simp at hn⟩
      intro l hl
      have hl2 : lockOf env screen w.nextId = l := by simpa using hl
      subst hl2
      subst hd
      refine ⟨⟨?_, ?_, ?_, rfl, rfl, hrun⟩, ?_⟩
      · simp [lockOf]
      · simp [lockOf]
      · simp [lockOf]
      · rw [unlockscreen_some]
        simp [lockOf, List.foldl]
        exact erase_three _ _ _ _

/-! ## Windows created and destroyed by `lockscreen` and by the first loop -/

theorem createdWindows_append (a b : List Call) :
    createdWindows (a ++ b) = createdWindows a ++ createdWindows b := by
  simp [createdWindows, List.filterMap_append]

theorem destroyedWindows_append (a b : List Call) :
    destroyedWindows (a ++ b) = destroyedWindows a ++ destroyedWindows b := by
  simp [destroyedWindows, List.filterMap_append]

theorem noEvents_append (a b : List Call) : NoEvents (a ++ b) ↔ NoEvents a ∧ NoEvents b := by
  simp only [NoEvents, List.mem_append, not_or]
  exact ⟨fun h => ⟨fun t => (h t).1, fun t => (h t).2⟩, fun h t => ⟨h.1 t, h.2 t⟩⟩

theorem mem_retryCalls (c x : Call) : ∀ n, x ∈ retryCalls c n → x = c ∨ x = Call.usleep 1000 := by
  intro n
  induction n with
  | zero => intro h; simp [retryCalls] at h
  | succ n ih =>
    intro h
    simp only [retryCalls, List.mem_cons] at h
    rcases h with h | h | h
    · exact Or.inl h
    · exact Or.inr h
    · exact ih h

theorem filterMap_retryCalls (f : Call → Option Nat) (c : Call) (hc : f c = none)
    (hu : f (Call.usleep 1000) = none) : ∀ n, (retryCalls c n).filterMap f = [] := by
  intro n
  induction n with
  | zero => simp [retryCalls]
  | succ n ih => simp [retryCalls, List.filterMap_cons, hc, hu, ih]

theorem createdWindows_retry_pointer (r c n : Nat) :
    createdWindows (retryCalls (Call.grabPointer r c) n) = [] :=
  filterMap_retryCalls _ _ rfl rfl n

theorem createdWindows_retry_keyboard (r n : Nat) :
    createdWindows (retryCalls (Call.grabKeyboard r) n) = [] :=
  filterMap_retryCalls _ _ rfl rfl n

theorem destroyedWindows_retry_pointer (r c n : Nat) :
    destroyedWindows (retryCalls (Call.grabPointer r c) n) = [] :=
  filterMap_retryCalls _ _ rfl rfl n

theorem destroyedWindows_retry_keyboard (r n : Nat) :
    destroyedWindows (retryCalls (Call.grabKeyboard r) n) = [] :=
  filterMap_retryCalls _ _ rfl rfl n

theorem noEvents_retry_pointer (r c n : Nat) :
    NoEvents (retryCalls (Call.grabPointer r c) n) := by
  intro t h
  rcases mem_retryCalls _ _ n h with h | h <;> simp at h

theorem noEvents_retry_keyboard (r n : Nat) :
    NoEvents (retryCalls (Call.grabKeyboard r) n) := by
  intro t h
  rcases mem_retryCalls _ _ n h with h | h <;> simp at h

theorem createdWindows_pointerCalls (env : Env) (screen : Int) (id kp : Nat) :
    createdWindows (pointerCalls env screen id kp) = [id] := by
  simp [pointerCalls, createdWindows_append, createdWindows_retry_pointer]
  simp [createdWindows, setupCalls]

theorem destroyedWindows_pointerCalls (env : Env) (screen : Int) (id kp : Nat) :
    destroyedWindows (pointerCalls env screen id kp) = [] := by
  simp [pointerCalls, destroyedWindows_append, destroyedWindows_retry_pointer]
  simp [destroyedWindows, setupCalls]

theorem noEvents_pointerCalls (env : Env) (screen : Int) (id kp : Nat) :
    NoEvents (pointerCalls env screen id kp) := by
  unfold pointerCalls
  rw [noEvents_append, noEvents_append]
  refine ⟨⟨?_, noEvents_retry_pointer _ _ _⟩, ?_⟩
  · intro t h; simp [setupCalls] at h
  · intro t h; simp at h

theorem noEvents_releaseCalls (l : Lock) : NoEvents (releaseCalls l) := by
  intro t h; simp [releaseCalls] at h

/-- What one call of `lockscreen` adds to the calls, in each of its three
outcomes: nothing at all; a guard that is created and released again inside
the call, with `running` cleared; or a guard that is created and returned. -/
theorem lockscreen_effect (env : Env) (dpy : DisplayPtr) (screen : Int) (w : World) :
    ∃ delta, (lockscreen env dpy screen w).2.calls = w.calls ++ delta ∧
      NoEvents delta ∧ (lockscreen env dpy screen w).2.consumed = w.consumed ∧
      (((lockscreen env dpy screen w).1 = none ∧ delta = [] ∧
          (lockscreen env dpy screen w).2 = w) ∨
       ((lockscreen env dpy screen w).1 = none ∧ w.running = true ∧
          createdWindows delta = [w.nextId] ∧ destroyedWindows delta = [w.nextId] ∧
          (lockscreen env dpy screen w).2.nextId = w.nextId + 3 ∧
          (lockscreen env dpy screen w).2.running = false) ∨
       (∃ l, (lockscreen env dpy screen w).1 = some l ∧ l.win = w.nextId ∧
          w.running = true ∧
          createdWindows delta = [w.nextId] ∧ destroyedWindows delta = [] ∧
          (lockscreen env dpy screen w).2.nextId = w.nextId + 3 ∧
          (lockscreen env dpy screen w).2.running = true)) := by
  rcases lockscreen_cases env dpy screen w with ⟨_, hs⟩ | ⟨he, hp⟩ | ⟨he, kp, hp, hk⟩ |
    ⟨he, kp, kk, hp, hk⟩
  · rw [hs]
    exact ⟨[], by simp, by intro t h; simp at h, rfl, Or.inl ⟨rfl, rfl, rfl⟩⟩
  · rw [lockscreen_pointer_fail env dpy screen w he hp]
    refine ⟨_, rfl, ?_, rfl, Or.inr (Or.inl ⟨rfl, he.1, ?_, ?_, rfl, rfl⟩)⟩
    · rw [noEvents_append, noEvents_append]
      refine ⟨⟨?_, noEvents_retry_pointer _ _ _⟩, noEvents_releaseCalls _⟩
      intro t h; simp [setupCalls] at h
    · simp [createdWindows_append, createdWindows_retry_pointer]
      simp [createdWindows, setupCalls, releaseCalls]
    · simp [destroyedWindows_append, destroyedWindows_retry_pointer]
      simp [destroyedWindows, setupCalls, releaseCalls, lockOf]
  · rw [lockscreen_keyboard_fail env dpy screen w kp he hp hk]
    refine ⟨_, rfl, ?_, rfl, Or.inr (Or.inl ⟨rfl, he.1, ?_, ?_, rfl, rfl⟩)⟩
    · rw [noEvents_append, noEvents_append]
      exact ⟨⟨noEvents_pointerCalls _ _ _ _, noEvents_retry_keyboard _ _⟩,
        noEvents_releaseCalls _⟩
    · simp [createdWindows_append, createdWindows_retry_keyboard,
        createdWindows_pointerCalls]
      simp [createdWindows, releaseCalls]
    · simp [destroyedWindows_append, destroyedWindows_retry_keyboard,
        destroyedWindows_pointerCalls]
      simp [destroyedWindows, releaseCalls, lockOf]
  · rw [lockscreen_success env dpy screen w kp kk he hp hk]
    refine ⟨_, rfl, ?_, rfl, Or.inr (Or.inr ⟨_, rfl, rfl, he.1, ?_, ?_, rfl, he.1⟩)⟩
    · rw [noEvents_append, noEvents_append]
      refine ⟨⟨noEvents_pointerCalls _ _ _ _, noEvents_retry_keyboard _ _⟩, ?_⟩
      intro t h; simp at h
    · simp [createdWindows_append, createdWindows_retry_keyboard,
        createdWindows_pointerCalls]
      simp [createdWindows]
    · simp [destroyedWindows_append, destroyedWindows_retry_keyboard,
        destroyedWindows_pointerCalls]
      simp [destroyedWindows]

theorem guardWindows_snoc_none (locks : List (Option Lock)) :
    guardWindows (locks ++ [none]) = guardWindows locks := by
  simp [guardWindows, List.filterMap_append]

theorem guardWindows_snoc_some (locks : List (Option Lock)) (l : Lock) :
    guardWindows (locks ++ [some l]) = guardWindows locks ++ [l.win] := by
  simp [guardWindows, List.filterMap_append]

theorem lockStep_inv (env : Env) (dpy : DisplayPtr) (screen : Nat) (w0 : World)
    (s : LockSet) (delta : List Call) (h : LockInv w0 s delta) :
    ∃ delta2, LockInv w0 (lockStep env dpy screen s) delta2 := by
  obtain ⟨hc, hne, hcons, hfresh, hnd, hperm, hn⟩ := h
  obtain ⟨d, hd, hdne, hdcons, hcase⟩ := lockscreen_effect env dpy (screen : Int) s.world
  refine ⟨delta ++ d, ?_⟩
  rcases hcase with ⟨h1, h2, h3⟩ | ⟨h1, _, h2, h3, h4, _⟩ | ⟨l, h1, hl, _, h2, h3, h4, _⟩
  · subst h2
    simp only [LockInv, lockStep, h1, h3, List.append_nil, ne_eq, not_true_eq_false,
      if_false, guardWindows_snoc_none]
    exact ⟨hc, hne, hcons, hfresh, hnd, hperm, hn⟩
  · have hnotin : s.world.nextId ∉ createdWindows delta :=
      fun hin => Nat.lt_irrefl _ (hfresh _ hin)
    simp only [LockInv, lockStep, h1, ne_eq, not_true_eq_false, if_false,
      guardWindows_snoc_none, createdWindows_append, destroyedWindows_append, h2, h3, h4]
    refine ⟨by rw [hd, hc, List.append_assoc], (noEvents_append _ _).2 ⟨hne, hdne⟩,
      by rw [hdcons, hcons], ?_, ?_, ?_, hn⟩
    · intro x hx
      rcases List.mem_append.1 hx with hx | hx
      · exact Nat.lt_add_right 3 (hfresh x hx)
      · simp at hx; omega
    · exact List.Nodup.append hnd (List.nodup_singleton _)
        (by
          intro a ha hb
          simp only [List.mem_singleton] at hb
          exact hnotin (hb ▸ ha))
    · rw [← List.append_assoc]
      exact List.Perm.append_right _ hperm
  · have hnotin : s.world.nextId ∉ createdWindows delta :=
      fun hin => Nat.lt_irrefl _ (hfresh _ hin)
    simp only [LockInv, lockStep, h1, ne_eq, reduceCtorEq, not_false_eq_true, if_true,
      guardWindows_snoc_some, createdWindows_append, destroyedWindows_append, h2, h3, h4, hl,
      List.append_nil]
    refine ⟨by rw [hd, hc, List.append_assoc], (noEvents_append _ _).2 ⟨hne, hdne⟩,
      by rw [hdcons, hcons], ?_, ?_, ?_, by simp [hn]⟩
    · intro x hx
      rcases List.mem_append.1 hx with hx | hx
      · exact Nat.lt_add_right 3 (hfresh x hx)
      · simp at hx; omega
    · exact List.Nodup.append hnd (List.nodup_singleton _)
        (by
          intro a ha hb
          simp only [List.mem_singleton] at hb
          exact hnotin (hb ▸ ha))
    · have hp1 : List.Perm (guardWindows s.locks ++ [s.world.nextId] ++ destroyedWindows delta)
          (guardWindows s.locks ++ destroyedWindows delta ++ [s.world.nextId]) := by
        rw [List.append_assoc, List.append_assoc]
        exact List.Perm.append_left _ List.perm_append_comm
      exact hp1.trans (List.Perm.append_right _ hperm)

theorem lockAll_inv (env : Env) (dpy : DisplayPtr) (w0 : World) :
    ∀ n, ∃ delta, LockInv w0 (lockAll env dpy n w0) delta := by
  intro n
  induction n with
  | zero =>
    refine ⟨[], ?_⟩
    simp [lockAll_zero, LockInv, NoEvents, createdWindows, destroyedWindows, guardWindows]
  | succ n ih =>
    obtain ⟨delta, hd⟩ := ih
    rw [lockAll_succ]
    exact lockStep_inv env dpy n w0 _ delta hd

/-! ## `main`: the two ways it ends -/

theorem main_eq_mainLocked (env : Env) (argv : List String) (fuel : Nat)
    (hflag : ¬ UsageOrVersion argv) (hopen : env.displayOpens = true)
    (hmalloc : env.mallocLocks = true) :
    main env argv fuel = mainLocked env argv fuel (World.opened env) := by
  have hv : ¬ (argv.length = 2 ∧ argv.getD 1 "" = "-v") := fun h => hflag (Or.inl h)
  have hh : ¬ (argv.length = 2 ∧ argv.getD 1 "" = "-h") := fun h => hflag (Or.inr h)
  unfold main
  simp only [hv, hh, hopen, hmalloc, if_false, Bool.not_true]
  rfl

theorem main_nothing_locked (env : Env) (argv : List String) (fuel : Nat)
    (hflag : ¬ UsageOrVersion argv) (hopen : env.displayOpens = true)
    (hmalloc : env.mallocLocks = true) (hzero : (acquired env).nlocks = 0) :
    main env argv fuel =
      some (Outcome.exit 1, XCloseDisplay (free (XSync (acquired env).world))) := by
  rw [main_eq_mainLocked env argv fuel hflag hopen hmalloc]
  unfold acquired at hzero
  simp [mainLocked, hzero, acquired]

theorem main_locked (env : Env) (argv : List String) (fuel : Nat)
    (hflag : ¬ UsageOrVersion argv) (hopen : env.displayOpens = true)
    (hmalloc : env.mallocLocks = true) (hpos : (acquired env).nlocks ≠ 0)
    (hparent : ¬ IsChild env argv) :
    main env argv fuel =
      (waitforevent env fuel
        { XSync (acquired env).world with
            calls := (XSync (acquired env).world).calls ++ forkCalls argv }).map
        (fun w3 => (Outcome.exit 0,
          XCloseDisplay (free (unlockLoop (some ()) (acquired env).locks w3)))) := by
  rw [main_eq_mainLocked env argv fuel hflag hopen hmalloc]
  unfold acquired at hpos
  unfold IsChild at hparent
  simp only [mainLocked, hpos, hparent, if_false, acquired]
  by_cases h2 : 2 ≤ argv.length
  · simp only [h2, forkCalls, if_true, World.call]
    cases waitforevent env fuel _ <;> rfl
  · simp only [h2, forkCalls, if_false, List.append_nil]
    cases waitforevent env fuel _ <;> rfl

theorem waitforevent_some (env : Env) (hst : ∀ i, env.nextEventStatus i = 0)
    (fuel : Nat) (w w3 : World) (h : waitforevent env fuel w = some w3) :
    ∃ k, IsUnlock (env.eventType (w.consumed + k)) ∧
      (∀ j < k, ¬ IsUnlock (env.eventType (w.consumed + j))) ∧ k + 2 ≤ fuel ∧
      w3 = { w with running := false, consumed := w.consumed + (k + 1),
                    calls := w.calls ++ eventCalls env w.consumed (k + 1) } := by
  by_cases hex : ∃ j, j < fuel ∧ IsUnlock (env.eventType (w.consumed + j))
  · have hk := (Nat.find_spec hex).2
    have hmin : ∀ j < Nat.find hex, ¬ IsUnlock (env.eventType (w.consumed + j)) :=
      fun j hj hu => Nat.find_min hex hj ⟨lt_trans hj (Nat.find_spec hex).1, hu⟩
    have hw := waitLoop_unlock env hst (Nat.find hex) fuel { w with running := true } rfl hk hmin
    unfold waitforevent at h
    rw [hw] at h
    by_cases hf : Nat.find hex + 2 ≤ fuel
    · rw [if_pos hf] at h
      exact ⟨Nat.find hex, hk, hmin, hf, (Option.some.inj h).symm⟩
    · rw [if_neg hf] at h
      cases h
  · have hno : ∀ j < fuel, ¬ IsUnlock (env.eventType (w.consumed + j)) :=
      fun j hj hu => hex ⟨j, hj, hu⟩
    unfold waitforevent at h
    rw [waitLoop_blocked env hst fuel { w with running := true } rfl hno] at h
    cases h

theorem guardWindows_eq_nil (locks : List (Option Lock)) :
    guardWindows locks = [] ↔ ∀ l ∈ locks, l = none := by
  induction locks with
  | nil => simp [guardWindows]
  | cons l rest ih =>
    cases l with
    | none =>
      simp only [guardWindows, List.filterMap_cons, Option.map_none'] at ih ⊢
      simp [ih]
    | some l => simp [guardWindows, List.filterMap_cons]

theorem acquired_inv (env : Env) :
    ∃ delta, LockInv (World.opened env) (acquired env) delta :=
  lockAll_inv env (some ()) (World.opened env) env.nscreens

/-- The acquisition phase on the sample display with one screen on which no
pointer grab ever succeeds: one guard is built (window 100) and rolled back. -/
theorem acquired_pointer_never :
    (acquired (sampleEnv 1 grabsNever grabsAtOnce sampleEvents)).locks = [none] ∧
    (acquired (sampleEnv 1 grabsNever grabsAtOnce sampleEvents)).nlocks = 0 ∧
    (acquired (sampleEnv 1 grabsNever grabsAtOnce sampleEvents)).world.calls =
      [Call.openDisplay] ++
        (setupCalls (sampleEnv 1 grabsNever grabsAtOnce sampleEvents) 0 100 ++
          retryCalls (Call.grabPointer 1 102) 1000 ++
          [Call.ungrabPointer, Call.freeColors 0 [0, 1, 2], Call.freePixmap 101,
            Call.destroyWindow 100]) := by
  have hen : Enters (sampleEnv 1 grabsNever grabsAtOnce sampleEvents) (some ()) 0
      (World.opened (sampleEnv 1 grabsNever grabsAtOnce sampleEvents)) := by decide
  have hex : Exhausted ((sampleEnv 1 grabsNever grabsAtOnce sampleEvents).grabPointer 0) := by
    intro a _
    simp [sampleEnv, grabsNever, GrabSuccess]
  have hl := lockscreen_pointer_fail _ _ _ _ hen hex
  have hacq : acquired (sampleEnv 1 grabsNever grabsAtOnce sampleEvents) =
      lockStep (sampleEnv 1 grabsNever grabsAtOnce sampleEvents) (some ()) 0
        { locks := [], nlocks := 0,
          world := World.opened (sampleEnv 1 grabsNever grabsAtOnce sampleEvents) } := by
    show lockAll _ _ (0 + 1) _ = _
    rw [lockAll_succ, lockAll_zero]
  rw [hacq]
  simp only [lockStep, Nat.cast_zero]
  rw [hl]
  simp [releaseCalls, lockOf, World.opened, World.start, sampleEnv]

/-- Counterexample to C4 as stated: one screen on which no pointer grab ever
succeeds.  No screen is acquired and the exit status is 1, but the run does
contain release calls: `lockscreen` itself calls `unlockscreen` on the guard it
has built. -/
theorem nothing_acquired_still_releases :
    (acquired (sampleEnv 1 grabsNever grabsAtOnce sampleEvents)).nlocks = 0 ∧
    ∃ w, main (sampleEnv 1 grabsNever grabsAtOnce sampleEvents) ["clicklock"] 0 =
        some (Outcome.exit 1, w) ∧
      Call.ungrabPointer ∈ w.calls ∧ Call.freeColors 0 [0, 1, 2] ∈ w.calls ∧
      Call.freePixmap 101 ∈ w.calls ∧ Call.destroyWindow 100 ∈ w.calls := by
  obtain ⟨_, hz, hc⟩ := acquired_pointer_never
  refine ⟨hz, _, main_nothing_locked _ _ 0 (by decide) rfl rfl hz, ?_⟩
  have hcalls : (XCloseDisplay (free (XSync (acquired (sampleEnv 1 grabsNever grabsAtOnce
      sampleEvents)).world))).calls =
      (acquired (sampleEnv 1 grabsNever grabsAtOnce sampleEvents)).world.calls ++
        [Call.sync, Call.closeDisplay] := by
    simp [XCloseDisplay, free, XSync, World.call]
  rw [hcalls, hc]
  simp

/-- C4, amended: in every run (display opened, `locks` allocated, not a `-v` or
`-h` invocation) in which no screen is acquired, every entry of `locks` is
`NULL`, the unlock loop of `main` is not run (after the acquisition loop `main`
issues only `XSync` and `XCloseDisplay`), no event is waited for, and the
process exits with status 1.  Release calls do occur in such a run, inside
`lockscreen`, as the rollback of a guard whose grabs were exhausted: every window
created in the run is destroyed there. -/
theorem main_nothing_acquired (env : Env) (argv : List String)
    (hflag : ¬ UsageOrVersion argv) (hopen : env.displayOpens = true)
    (hmalloc : env.mallocLocks = true) (hzero : (acquired env).nlocks = 0) :
    (∀ l ∈ (acquired env).locks, l = none) ∧
    ∀ fuel, ∃ w, main env argv fuel = some (Outcome.exit 1, w) ∧
      w.calls = (acquired env).world.calls ++ [Call.sync, Call.closeDisplay] ∧
      NoEvents w.calls ∧ w.consumed = 0 ∧
      List.Perm (destroyedWindows (acquired env).world.calls)
        (createdWindows (acquired env).world.calls) := by
  obtain ⟨delta, hc, hne, hcons, _, _, hperm, hn⟩ := acquired_inv env
  have hg : guardWindows (acquired env).locks = [] := by
    rw [hzero] at hn
    exact List.length_eq_zero.1 hn.symm
  refine ⟨(guardWindows_eq_nil _).1 hg, ?_⟩
  intro fuel
  refine ⟨_, main_nothing_locked env argv fuel hflag hopen hmalloc hzero, ?_, ?_, ?_, ?_⟩
  · simp [XCloseDisplay, free, XSync, World.call]
  · have hcalls : (XCloseDisplay (free (XSync (acquired env).world))).calls =
        [Call.openDisplay] ++ delta ++ [Call.sync, Call.closeDisplay] := by
      simp [XCloseDisplay, free, XSync, World.call, hc, World.opened]
    rw [hcalls, noEvents_append, noEvents_append]
    refine ⟨⟨?_, hne⟩, ?_⟩
    · intro t h; simp at h
    · intro t h; simp at h
  · simp [XCloseDisplay, free, XSync, World.call, hcons, World.opened, World.start]
  · rw [hg, List.nil_append] at hperm
    rw [hc, createdWindows_append, destroyedWindows_append]
    simpa [World.opened, createdWindows, destroyedWindows] using hperm

/-- Witness for C4, amended: no arguments, one screen on which no pointer grab
ever succeeds.  The guard with window 100 is built and rolled back inside
`lockscreen`; nothing is acquired, `main` adds only `XSync` and
`XCloseDisplay`, reads no event and exits with status 1. -/
theorem main_nothing_acquired_witness :
    ¬ UsageOrVersion ["clicklock"] ∧
    (acquired (sampleEnv 1 grabsNever grabsAtOnce sampleEvents)).nlocks = 0 ∧
    createdWindows (acquired (sampleEnv 1 grabsNever grabsAtOnce sampleEvents)).world.calls =
      [100] ∧
    (acquired (sampleEnv 1 grabsNever grabsAtOnce sampleEvents)).locks = [none] ∧
    ∃ w, main (sampleEnv 1 grabsNever grabsAtOnce sampleEvents) ["clicklock"] 0 =
        some (Outcome.exit 1, w) ∧
      w.calls = (acquired (sampleEnv 1 grabsNever grabsAtOnce sampleEvents)).world.calls ++
        [Call.sync, Call.closeDisplay] ∧
      NoEvents w.calls ∧
      List.Perm
        (destroyedWindows (acquired (sampleEnv 1 grabsNever grabsAtOnce
          sampleEvents)).world.calls) [100] := by
  obtain ⟨hl, hz, hc⟩ := acquired_pointer_never
  have hcr : createdWindows (acquired (sampleEnv 1 grabsNever grabsAtOnce
      sampleEvents)).world.calls = [100] := by
    rw [hc]
    simp only [createdWindows_append, createdWindows_retry_pointer]
    simp [createdWindows, setupCalls]
  have h := (main_nothing_acquired (sampleEnv 1 grabsNever grabsAtOnce sampleEvents)
    ["clicklock"] (by decide) rfl rfl hz).2 0
  obtain ⟨w, h1, h2, h3, _, h5⟩ := h
  rw [hcr] at h5
  exact ⟨by decide, hz, hcr, hl, w, h1, h2, h3, h5⟩

/-! ## Acquisition over all screens -/

theorem lockscreen_acquirable (env : Env) (screen : Nat) (w : World)
    (hrun : w.running = true) (h : Acquirable env screen) :
    lockscreen env (some ()) screen w =
        (some (lockOf env screen w.nextId), (lockscreen env (some ()) screen w).2) ∧
      (lockscreen env (some ()) screen w).2.running = true ∧
      (lockscreen env (some ()) screen w).2.nextId = w.nextId + 3 := by
  have hen : Enters env (some ()) (screen : Int) w := ⟨hrun, rfl, by omega, h.1⟩
  rcases exhausted_or_first (env.grabPointer screen) with hp | ⟨kp, hp⟩
  · exact absurd hp h.2.1
  · rcases exhausted_or_first (env.grabKeyboard screen) with hk | ⟨kk, hk⟩
    · exact absurd hk h.2.2
    · rw [lockscreen_success env _ _ w kp kk hen hp hk]
      exact ⟨rfl, hrun, rfl⟩

theorem lockscreen_exhausted (env : Env) (screen : Int) (w : World)
    (hen : Enters env (some ()) screen w) (h : GrabsExhausted env screen) :
    (lockscreen env (some ()) screen w).1 = none ∧
      (lockscreen env (some ()) screen w).2.running = false := by
  rcases exhausted_or_first (env.grabPointer screen) with hp | ⟨kp, hp⟩
  · rw [lockscreen_pointer_fail env _ _ w hen hp]
    exact ⟨rfl, rfl⟩
  · have hk : Exhausted (env.grabKeyboard screen) := by
      rcases h with h2 | h2
      · exact absurd h2 (not_exhausted_of_first hp)
      · exact h2
    rw [lockscreen_keyboard_fail env _ _ w kp hen hp hk]
    exact ⟨rfl, rfl⟩

/-- If `running` is still set after the first `i` screens, it was set at the
start, and every screen so far on which `malloc` succeeds was acquired. -/
theorem lockAll_running (env : Env) (w : World) :
    ∀ i, (lockAll env (some ()) i w).world.running = true →
      w.running = true ∧ ∀ s : Nat, s < i → env.mallocLock s = true → Acquirable env s := by
  intro i
  induction i with
  | zero =>
    intro h
    exact ⟨by simpa [lockAll_zero] using h, fun s hs => absurd hs (by omega)⟩
  | succ n ih =>
    intro h
    rw [lockAll_succ] at h
    simp only [lockStep] at h
    rcases lockscreen_cases env (some ()) (n : Int) (lockAll env (some ()) n w).world with
      ⟨hne, hs⟩ | ⟨he, hp⟩ | ⟨he, kp, hp, hk⟩ | ⟨he, kp, kk, hp, hk⟩
    · rw [hs] at h
      obtain ⟨h1, h2⟩ := ih h
      refine ⟨h1, fun s hs hm => ?_⟩
      by_cases hsn : s = n
      · subst hsn
        exact absurd ⟨h, rfl, by omega, hm⟩ hne
      · exact h2 s (by omega) hm
    · rw [lockscreen_pointer_fail env _ _ _ he hp] at h
      cases h
    · rw [lockscreen_keyboard_fail env _ _ _ kp he hp hk] at h
      cases h
    · obtain ⟨h1, h2⟩ := ih he.1
      refine ⟨h1, fun s hs hm => ?_⟩
      by_cases hsn : s = n
      · subst hsn
        exact ⟨hm, not_exhausted_of_first hp, not_exhausted_of_first hk⟩
      · exact h2 s (by omega) hm

/-- While every screen so far is acquirable, the first loop of `main` stores
one guard per screen and leaves `running` set. -/
theorem lockAll_acquirable (env : Env) (w : World) (hrun : w.running = true) :
    ∀ i, (∀ s : Nat, s < i → Acquirable env s) →
      (lockAll env (some ()) i w).world.running = true ∧
      (lockAll env (some ()) i w).nlocks = i ∧
      (lockAll env (some ()) i w).world.nextId = w.nextId + 3 * i ∧
      (lockAll env (some ()) i w).locks =
        (List.range i).map (fun s : Nat => some (lockOf env s (w.nextId + 3 * s))) := by
  intro i
  induction i with
  | zero => intro _; simp [lockAll_zero, hrun]
  | succ n ih =>
    intro hall
    obtain ⟨h1, h2, h3, h4⟩ := ih (fun s hs => hall s (by omega))
    obtain ⟨e1, e2, e3⟩ := lockscreen_acquirable env n _ h1 (hall n (by omega))
    rw [lockAll_succ]
    simp only [lockStep]
    rw [e1]
    refine ⟨e2, by simp [h2], by rw [e3, h3]; ring, ?_⟩
    simp [h4, h3, List.range_succ]

/-- The first loop of `main` when the call for screen `i` is entered and its
grabs are exhausted: that call clears `running`, and the later iterations only
append `NULL` entries. -/
theorem lockAll_fail_at (env : Env) (w : World) (i : Nat)
    (hen : Enters env (some ()) i (lockAll env (some ()) i w).world)
    (hfail : GrabsExhausted env i) :
    ((lockscreen env (some ()) i (lockAll env (some ()) i w).world).1 = none ∧
      (lockscreen env (some ()) i (lockAll env (some ()) i w).world).2.running = false) ∧
    (∀ j, i < j →
      (lockAll env (some ()) j w).world = (lockAll env (some ()) (i + 1) w).world ∧
      (lockAll env (some ()) j w).nlocks = (lockAll env (some ()) i w).nlocks ∧
      (lockAll env (some ()) j w).locks =
        (lockAll env (some ()) i w).locks ++ List.replicate (j - i) none) := by
  obtain ⟨e1, e2⟩ := lockscreen_exhausted env i _ hen hfail
  refine ⟨⟨e1, e2⟩, ?_⟩
  have hstep : (lockAll env (some ()) (i + 1) w).world.running = false ∧
      (lockAll env (some ()) (i + 1) w).nlocks = (lockAll env (some ()) i w).nlocks ∧
      (lockAll env (some ()) (i + 1) w).locks = (lockAll env (some ()) i w).locks ++ [none] := by
    rw [lockAll_succ]
    simp only [lockStep, e1, e2]
    simp
  intro j hj
  obtain ⟨m, rfl⟩ : ∃ m, j = (i + 1) + m := ⟨j - (i + 1), by omega⟩
  have hsplit : lockAll env (some ()) (i + 1 + m) w =
      lockLoop env (some ()) m (0 + (i + 1)) (lockAll env (some ()) (i + 1) w) := by
    unfold lockAll
    exact lockLoop_add env (some ()) (i + 1) m 0 _
  rw [hsplit, lockLoop_stopped env (some ()) m _ _ hstep.1]
  refine ⟨rfl, hstep.2.1, ?_⟩
  simp only [hstep.2.2, List.append_assoc]
  congr 1
  rw [show i + 1 + m - i = m + 1 by omega, List.replicate_succ]
  rfl

theorem lockAll_nlocks_le (env : Env) (dpy : DisplayPtr) (w : World) :
    ∀ n, (lockAll env dpy n w).nlocks ≤ n := by
  intro n
  induction n with
  | zero => simp [lockAll_zero]
  | succ n ih =>
    rw [lockAll_succ]
    simp only [lockStep]
    split <;> omega

/-- Counterexample to C7 as stated: two screens, `malloc` fails in `lockscreen`
for screen 0 (which returns `NULL` and leaves the run flag set), and the
acquisition on screen 1 fails by grab exhaustion.  The claim gives the acquired
screens as the prefix `0 .. 0` and the count as 1; the code leaves both entries
`NULL` and `nlocks = 0`. -/
theorem exhaustion_after_failed_malloc :
    Enters mallocFailsOnFirst (some ()) ((1 : Nat) : Int)
      (lockAll mallocFailsOnFirst (some ()) 1 (World.opened mallocFailsOnFirst)).world ∧
    GrabsExhausted mallocFailsOnFirst ((1 : Nat) : Int) ∧
    (lockAll mallocFailsOnFirst (some ()) 2 (World.opened mallocFailsOnFirst)).locks =
      [none, none] ∧
    (lockAll mallocFailsOnFirst (some ()) 2 (World.opened mallocFailsOnFirst)).nlocks = 0 := by
  have h1 : lockAll mallocFailsOnFirst (some ()) 1 (World.opened mallocFailsOnFirst) =
      { locks := [none], nlocks := 0, world := World.opened mallocFailsOnFirst } := by
    decide
  have hen : Enters mallocFailsOnFirst (some ()) ((1 : Nat) : Int)
      (lockAll mallocFailsOnFirst (some ()) 1 (World.opened mallocFailsOnFirst)).world := by
    rw [h1]; decide
  have hp : Exhausted (mallocFailsOnFirst.grabPointer ((1 : Nat) : Int)) := by
    intro a _
    simp [mallocFailsOnFirst, sampleEnv, grabsNever, GrabSuccess]
  have hs := lockscreen_pointer_fail _ _ _ _ hen hp
  refine ⟨hen, Or.inl hp, ?_, ?_⟩
  · rw [lockAll_succ]
    simp only [lockStep]
    rw [hs, h1]
    rfl
  · rw [lockAll_succ]
    simp only [lockStep]
    rw [hs, h1]
    rfl

/-- C7, amended: in the acquisition loop over `nscreens` screens, let the
acquisition on screen `i` fail by grab exhaustion: the call of `lockscreen` for
screen `i` passes its first condition (so the run flag is set when it is made)
and its pointer or keyboard retries are exhausted.  Then that call returns
`NULL` and leaves the run flag false; for every later screen `j` the call of
`lockscreen` is made in the state left by screen `i`, returns `NULL` and
changes nothing (no colour, no window, no grab attempt); the loop ends in that
same state, run flag false.  Consequently every entry of `locks` from `i` on is
`NULL` and `nlocks` is the count reached before screen `i`, at most `i`; when
`malloc` succeeded in `lockscreen` for every earlier screen, the guards stored
are exactly those of screens `0 .. i-1` and `nlocks = i` (an earlier screen
whose `malloc` failed is skipped without clearing the run flag and is missing
from the prefix).  When `i = 0` no screen is locked and `main` exits with
status 1. -/
theorem lock_fail_fast (env : Env) (w : World) (i : Nat) (hi : i < env.nscreens)
    (hen : Enters env (some ()) i (lockAll env (some ()) i w).world)
    (hfail : GrabsExhausted env i) :
    ((lockscreen env (some ()) i (lockAll env (some ()) i w).world).1 = none ∧
      (lockscreen env (some ()) i (lockAll env (some ()) i w).world).2.running = false) ∧
    (∀ j, i < j → j < env.nscreens →
      (lockAll env (some ()) j w).world = (lockAll env (some ()) (i + 1) w).world ∧
      lockscreen env (some ()) j (lockAll env (some ()) j w).world =
        (none, (lockAll env (some ()) j w).world)) ∧
    (lockAll env (some ()) env.nscreens w).world =
      (lockAll env (some ()) (i + 1) w).world ∧
    (lockAll env (some ()) env.nscreens w).world.running = false ∧
    ((lockAll env (some ()) env.nscreens w).locks =
        (lockAll env (some ()) i w).locks ++ List.replicate (env.nscreens - i) none ∧
      (lockAll env (some ()) i w).locks.length = i ∧
      (lockAll env (some ()) env.nscreens w).nlocks = (lockAll env (some ()) i w).nlocks ∧
      (lockAll env (some ()) env.nscreens w).nlocks ≤ i) ∧
    ((∀ s : Nat, s < i → env.mallocLock s = true) →
      (lockAll env (some ()) env.nscreens w).locks =
        (List.range i).map (fun s : Nat => some (lockOf env s (w.nextId + 3 * s))) ++
          List.replicate (env.nscreens - i) none ∧
      (lockAll env (some ()) env.nscreens w).nlocks = i) ∧
    (i = 0 → w = World.opened env → ∀ argv fuel, ¬ UsageOrVersion argv →
      env.displayOpens = true → env.mallocLocks = true →
      ∃ wf, main env argv fuel = some (Outcome.exit 1, wf)) := by
  obtain ⟨hcall, hlater⟩ := lockAll_fail_at env w i hen hfail
  have hrun1 : (lockAll env (some ()) (i + 1) w).world.running = false := by
    rw [lockAll_succ]
    exact hcall.2
  refine ⟨hcall, ?_, (hlater _ hi).1, ?_, ?_, ?_, ?_⟩
  · intro j hj _
    refine ⟨(hlater j hj).1, ?_⟩
    apply lockscreen_skip
    intro hen2
    have hr := hen2.1
    rw [(hlater j hj).1, hrun1] at hr
    cases hr
  · rw [(hlater _ hi).1]
    exact hrun1
  · refine ⟨(hlater _ hi).2.2, lockAll_length env (some ()) w i, (hlater _ hi).2.1, ?_⟩
    rw [(hlater _ hi).2.1]
    exact lockAll_nlocks_le env (some ()) w i
  · intro hmalloc
    obtain ⟨hw, hacq⟩ := lockAll_running env w i hen.1
    obtain ⟨_, h2, _, h4⟩ :=
      lockAll_acquirable env w hw i (fun s hs => hacq s hs (hmalloc s hs))
    rw [(hlater _ hi).2.2, (hlater _ hi).2.1, h2, h4]
    exact ⟨rfl, rfl⟩
  · intro h0 hw argv fuel hflag hopen hmalloc
    subst h0
    subst hw
    have hz : (acquired env).nlocks = 0 := by
      have := (hlater _ hi).2.1
      rw [lockAll_zero] at this
      exact this
    exact ⟨_, main_nothing_locked env argv fuel hflag hopen hmalloc hz⟩

/-- Witness for C7, amended.  First, three screens where screen 0 is acquired
at once and no pointer grab succeeds on screen 1 (`i = 1`): the guard of screen
0 is stored, the entries of screens 1 and 2 are `NULL`, `nlocks = 1`, the run
flag is false.  Second, two screens where no grab succeeds on screen 0
(`i = 0`): nothing is locked and the exit status is 1. -/
theorem lock_fail_fast_witness :
    (Enters (sampleEnv 3 pointerFailsOnSecond grabsAtOnce sampleEvents) (some ())
        ((1 : Nat) : Int)
        (lockAll (sampleEnv 3 pointerFailsOnSecond grabsAtOnce sampleEvents) (some ()) 1
          (World.opened (sampleEnv 3 pointerFailsOnSecond grabsAtOnce sampleEvents))).world ∧
      GrabsExhausted (sampleEnv 3 pointerFailsOnSecond grabsAtOnce sampleEvents)
        ((1 : Nat) : Int) ∧
      (lockAll (sampleEnv 3 pointerFailsOnSecond grabsAtOnce sampleEvents) (some ())
        (sampleEnv 3 pointerFailsOnSecond grabsAtOnce sampleEvents).nscreens
        (World.opened (sampleEnv 3 pointerFailsOnSecond grabsAtOnce sampleEvents))).locks =
        [some { screen := 0, root := 1, win := 100, pmap := 101, colors := [0, 1, 2] },
          none, none] ∧
      (lockAll (sampleEnv 3 pointerFailsOnSecond grabsAtOnce sampleEvents) (some ())
        (sampleEnv 3 pointerFailsOnSecond grabsAtOnce sampleEvents).nscreens
        (World.opened (sampleEnv 3 pointerFailsOnSecond grabsAtOnce sampleEvents))).nlocks =
        1 ∧
      (lockAll (sampleEnv 3 pointerFailsOnSecond grabsAtOnce sampleEvents) (some ())
        (sampleEnv 3 pointerFailsOnSecond grabsAtOnce sampleEvents).nscreens
        (World.opened (sampleEnv 3 pointerFailsOnSecond grabsAtOnce
          sampleEvents))).world.running = false) ∧
    (Enters (sampleEnv 2 grabsNever grabsNever sampleEvents) (some ()) ((0 : Nat) : Int)
        (lockAll (sampleEnv 2 grabsNever grabsNever sampleEvents) (some ()) 0
          (World.opened (sampleEnv 2 grabsNever grabsNever sampleEvents))).world ∧
      GrabsExhausted (sampleEnv 2 grabsNever grabsNever sampleEvents) ((0 : Nat) : Int) ∧
      (lockAll (sampleEnv 2 grabsNever grabsNever sampleEvents) (some ())
        (sampleEnv 2 grabsNever grabsNever sampleEvents).nscreens
        (World.opened (sampleEnv 2 grabsNever grabsNever sampleEvents))).locks =
        [none, none] ∧
      (lockAll (sampleEnv 2 grabsNever grabsNever sampleEvents) (some ())
        (sampleEnv 2 grabsNever grabsNever sampleEvents).nscreens
        (World.opened (sampleEnv 2 grabsNever grabsNever sampleEvents))).nlocks = 0 ∧
      ∃ wf, main (sampleEnv 2 grabsNever grabsNever sampleEvents) ["clicklock"] 0 =
        some (Outcome.exit 1, wf)) := by
  constructor
  · have hen : Enters (sampleEnv 3 pointerFailsOnSecond grabsAtOnce sampleEvents) (some ())
        ((1 : Nat) : Int)
        (lockAll (sampleEnv 3 pointerFailsOnSecond grabsAtOnce sampleEvents) (some ()) 1
          (World.opened (sampleEnv 3 pointerFailsOnSecond grabsAtOnce
            sampleEvents))).world := by
      decide
    have hex : GrabsExhausted (sampleEnv 3 pointerFailsOnSecond grabsAtOnce sampleEvents)
        ((1 : Nat) : Int) := by
      refine Or.inl ?_
      intro a _
      simp [sampleEnv, pointerFailsOnSecond, GrabSuccess]
    have h := lock_fail_fast (sampleEnv 3 pointerFailsOnSecond grabsAtOnce sampleEvents)
      (World.opened (sampleEnv 3 pointerFailsOnSecond grabsAtOnce sampleEvents)) 1
      (by decide) hen hex
    have hl := h.2.2.2.2.2.1 (fun s _ => rfl)
    refine ⟨hen, hex, ?_, hl.2, h.2.2.2.1⟩
    rw [hl.1]
    decide
  · have hen : Enters (sampleEnv 2 grabsNever grabsNever sampleEvents) (some ())
        ((0 : Nat) : Int)
        (lockAll (sampleEnv 2 grabsNever grabsNever sampleEvents) (some ()) 0
          (World.opened (sampleEnv 2 grabsNever grabsNever sampleEvents))).world := by
      decide
    have hex : GrabsExhausted (sampleEnv 2 grabsNever grabsNever sampleEvents)
        ((0 : Nat) : Int) := by
      refine Or.inl ?_
      intro a _
      simp [sampleEnv, grabsNever, GrabSuccess]
    have h := lock_fail_fast (sampleEnv 2 grabsNever grabsNever sampleEvents)
      (World.opened (sampleEnv 2 grabsNever grabsNever sampleEvents)) 0 (by decide) hen hex
    have hl := h.2.2.2.2.2.1 (fun s hs => absurd hs (by omega))
    refine ⟨hen, hex, ?_, hl.2,
      h.2.2.2.2.2.2 rfl rfl ["clicklock"] 0 (by decide) rfl rfl⟩
    rw [hl.1]
    decide

/-! ## Complete runs of `main` -/

theorem waitingState_consumed (env : Env) (argv : List String) :
    (waitingState env argv).consumed = 0 := by
  obtain ⟨delta, _, _, hcons, _⟩ := acquired_inv env
  simp [waitingState, XSync, World.call, hcons, World.opened, World.start]

theorem main_locked_returns (env : Env) (argv : List String)
    (hflag : ¬ UsageOrVersion argv) (hopen : env.displayOpens = true)
    (hmalloc : env.mallocLocks = true) (hpos : (acquired env).nlocks ≠ 0)
    (hparent : ¬ IsChild env argv) (hst : ∀ i, env.nextEventStatus i = 0)
    (k : Nat) (hk : FirstUnlockAt env k) (fuel : Nat) :
    main env argv fuel =
      if k + 2 ≤ fuel then some (Outcome.exit 0, finalState env argv k) else none := by
  rw [main_locked env argv fuel hflag hopen hmalloc hpos hparent]
  have hc := waitingState_consumed env argv
  have hw : waitforevent env fuel (waitingState env argv) =
      if k + 2 ≤ fuel then some (unlockedState env argv k) else none := by
    unfold waitforevent
    rw [waitLoop_unlock env hst k fuel { waitingState env argv with running := true } rfl
      (by show IsUnlock (env.eventType ((waitingState env argv).consumed + k))
          rw [hc, Nat.zero_add]; exact hk.1)
      (fun j hj => by
        show ¬ IsUnlock (env.eventType ((waitingState env argv).consumed + j))
        rw [hc, Nat.zero_add]; exact hk.2 j hj)]
    rfl
  show (waitforevent env fuel (waitingState env argv)).map _ = _
  rw [hw]
  by_cases hf : k + 2 ≤ fuel
  · simp [hf, finalState]
  · simp [hf]

theorem main_locked_blocked (env : Env) (argv : List String)
    (hflag : ¬ UsageOrVersion argv) (hopen : env.displayOpens = true)
    (hmalloc : env.mallocLocks = true) (hpos : (acquired env).nlocks ≠ 0)
    (hparent : ¬ IsChild env argv) (hst : ∀ i, env.nextEventStatus i = 0)
    (fuel : Nat) (hno : ∀ j < fuel, ¬ IsUnlock (env.eventType j)) :
    main env argv fuel = none := by
  rw [main_locked env argv fuel hflag hopen hmalloc hpos hparent]
  have hc := waitingState_consumed env argv
  have hw : waitforevent env fuel (waitingState env argv) = none := by
    unfold waitforevent
    exact waitLoop_blocked env hst fuel { waitingState env argv with running := true } rfl
      (fun j hj => by
        show ¬ IsUnlock (env.eventType ((waitingState env argv).consumed + j))
        rw [hc, Nat.zero_add]; exact hno j hj)
  show (waitforevent env fuel (waitingState env argv)).map _ = _
  rw [hw]
  rfl

theorem main_locked_some (env : Env) (argv : List String)
    (hflag : ¬ UsageOrVersion argv) (hopen : env.displayOpens = true)
    (hmalloc : env.mallocLocks = true) (hpos : (acquired env).nlocks ≠ 0)
    (hparent : ¬ IsChild env argv) (hst : ∀ i, env.nextEventStatus i = 0)
    (fuel : Nat) (out : Outcome) (wf : World) (h : main env argv fuel = some (out, wf)) :
    ∃ k, FirstUnlockAt env k ∧ k + 2 ≤ fuel ∧ out = Outcome.exit 0 ∧
      wf = finalState env argv k := by
  by_cases hex : ∃ j, j < fuel ∧ IsUnlock (env.eventType j)
  · have hk : FirstUnlockAt env (Nat.find hex) :=
      ⟨(Nat.find_spec hex).2,
        fun j hj hu => Nat.find_min hex hj ⟨lt_trans hj (Nat.find_spec hex).1, hu⟩⟩
    rw [main_locked_returns env argv hflag hopen hmalloc hpos hparent hst _ hk fuel] at h
    by_cases hf : Nat.find hex + 2 ≤ fuel
    · rw [if_pos hf] at h
      have h2 := Option.some.inj h
      exact ⟨_, hk, hf, (congrArg Prod.fst h2).symm, (congrArg Prod.snd h2).symm⟩
    · rw [if_neg hf] at h
      cases h
  · rw [main_locked_blocked env argv hflag hopen hmalloc hpos hparent hst fuel
      (fun j hj hu => hex ⟨j, hj, hu⟩)] at h
    cases h

theorem finalState_calls (env : Env) (argv : List String) (k : Nat) :
    (finalState env argv k).calls =
      (acquired env).world.calls ++ [Call.sync] ++ forkCalls argv ++
        eventCalls env 0 (k + 1) ++ releaseAllCalls (acquired env).locks ++
        [Call.closeDisplay] := by
  have hc := waitingState_consumed env argv
  simp only [finalState, XCloseDisplay, free, unlockLoop_calls, unlockedState, hc]
  simp [waitingState, XSync, World.call]

theorem nothing_locked_calls (env : Env) :
    (XCloseDisplay (free (XSync (acquired env).world))).calls =
        (acquired env).world.calls ++ [Call.sync, Call.closeDisplay] ∧
      NoEvents (XCloseDisplay (free (XSync (acquired env).world))).calls ∧
      (XCloseDisplay (free (XSync (acquired env).world))).consumed = 0 := by
  obtain ⟨delta, hc, hne, hcons, _⟩ := acquired_inv env
  refine ⟨by simp [XCloseDisplay, free, XSync, World.call], ?_, ?_⟩
  · have hcalls : (XCloseDisplay (free (XSync (acquired env).world))).calls =
        [Call.openDisplay] ++ delta ++ [Call.sync, Call.closeDisplay] := by
      simp [XCloseDisplay, free, XSync, World.call, hc, World.opened]
    rw [hcalls, noEvents_append, noEvents_append]
    refine ⟨⟨?_, hne⟩, ?_⟩
    · intro t h; simp at h
    · intro t h; simp at h
  · simp [XCloseDisplay, free, XSync, World.call, hcons, World.opened, World.start]

/-- C9: for every run of the supervisor (the parent process) with an openable
display that is not a `-v` or `-h` invocation, with `XNextEvent` returning 0 as
Xlib does: the exit status is 0 iff at least one screen was acquired.  If no
screen was acquired (or `locks` could not be allocated) the process exits with
status 1 and never called `XNextEvent`.  If at least one was acquired, the
process exits only with status 0, exactly when the first `KeyPress` or
`ButtonPress` has been read, and its calls are then, in this order: those of
the acquisition over all `nscreens` screens, `XSync`, `fork()` if a command was
given, the wait up to that event, the release sequence of every acquired entry
of `locks[0 .. nscreens-1]`, and `XCloseDisplay`; until such an event arrives it
does not exit. -/
theorem main_exit_status (env : Env) (argv : List String)
    (hflag : ¬ UsageOrVersion argv) (hopen : env.displayOpens = true)
    (hparent : ¬ IsChild env argv) (hst : ∀ i, env.nextEventStatus i = 0) :
    (env.mallocLocks = false →
      ∀ fuel, ∃ wf, main env argv fuel = some (Outcome.exit 1, wf) ∧ NoEvents wf.calls) ∧
    (env.mallocLocks = true →
      (acquired env).locks.length = env.nscreens ∧
      (acquired env).nlocks = (guardWindows (acquired env).locks).length ∧
      ((acquired env).nlocks = 0 →
        ∀ fuel, ∃ wf, main env argv fuel = some (Outcome.exit 1, wf) ∧ NoEvents wf.calls) ∧
      (0 < (acquired env).nlocks →
        (∀ fuel out wf, main env argv fuel = some (out, wf) →
          out = Outcome.exit 0 ∧
          ∃ k, FirstUnlockAt env k ∧ k + 2 ≤ fuel ∧
            wf.calls = (acquired env).world.calls ++ [Call.sync] ++ forkCalls argv ++
              eventCalls env 0 (k + 1) ++ releaseAllCalls (acquired env).locks ++
              [Call.closeDisplay]) ∧
        (∀ k, FirstUnlockAt env k → ∀ fuel, k + 2 ≤ fuel →
          ∃ wf, main env argv fuel = some (Outcome.exit 0, wf)) ∧
        (∀ fuel, (∀ j < fuel, ¬ IsUnlock (env.eventType j)) →
          main env argv fuel = none))) := by
  have hv : ¬ (argv.length = 2 ∧ argv.getD 1 "" = "-v") := fun h => hflag (Or.inl h)
  have hh : ¬ (argv.length = 2 ∧ argv.getD 1 "" = "-h") := fun h => hflag (Or.inr h)
  refine ⟨?_, ?_⟩
  · intro hm fuel
    refine ⟨fprintf Msg.mallocFailed ((World.start env).call Call.openDisplay), ?_, ?_⟩
    · unfold main
      simp only [hv, hh, hopen, hm, if_false, Bool.not_true, Bool.not_false, if_true]
      rfl
    · intro t h
      simp [fprintf, World.call, World.start] at h
  · intro hm
    obtain ⟨delta, _, _, _, _, _, _, hn⟩ := acquired_inv env
    refine ⟨lockAll_length env (some ()) (World.opened env) env.nscreens, hn, ?_, ?_⟩
    · intro hz fuel
      exact ⟨_, main_nothing_locked env argv fuel hflag hopen hm hz,
        (nothing_locked_calls env).2.1⟩
    · intro hpos
      have hne : (acquired env).nlocks ≠ 0 := by omega
      refine ⟨?_, ?_, ?_⟩
      · intro fuel out wf h
        obtain ⟨k, hk, hf, ho, hw⟩ :=
          main_locked_some env argv hflag hopen hm hne hparent hst fuel out wf h
        exact ⟨ho, k, hk, hf, by rw [hw, finalState_calls]⟩
      · intro k hk fuel hf
        refine ⟨finalState env argv k, ?_⟩
        rw [main_locked_returns env argv hflag hopen hm hne hparent hst k hk fuel, if_pos hf]
      · intro fuel hno
        exact main_locked_blocked env argv hflag hopen hm hne hparent hst fuel hno

/-- Witness for C9: two screens, every grab succeeds at once, the third event
is a `ButtonPress`, a command is given; the parent exits with status 0 once
that event is read. -/
theorem main_exit_status_witness :
    ¬ UsageOrVersion ["clicklock", "xclock"] ∧
    ¬ IsChild (sampleEnv 2 grabsAtOnce grabsAtOnce sampleEvents) ["clicklock", "xclock"] ∧
    (acquired (sampleEnv 2 grabsAtOnce grabsAtOnce sampleEvents)).nlocks = 2 ∧
    FirstUnlockAt (sampleEnv 2 grabsAtOnce grabsAtOnce sampleEvents) 2 ∧
    (∃ wf, main (sampleEnv 2 grabsAtOnce grabsAtOnce sampleEvents)
        ["clicklock", "xclock"] 4 = some (Outcome.exit 0, wf)) ∧
    main (sampleEnv 2 grabsAtOnce grabsAtOnce sampleEvents) ["clicklock", "xclock"] 2 =
      none := by
  have hn : (acquired (sampleEnv 2 grabsAtOnce grabsAtOnce sampleEvents)).nlocks = 2 := by
    decide
  have h := (main_exit_status (sampleEnv 2 grabsAtOnce grabsAtOnce sampleEvents)
    ["clicklock", "xclock"] (by decide) rfl (by decide) (fun _ => rfl)).2 rfl
  have hpos := h.2.2.2 (by rw [hn]; decide)
  exact ⟨by decide, by decide, hn, by decide, hpos.2.1 2 (by decide) 4 (by decide),
    hpos.2.2 2 (by decide)⟩

theorem eventCalls_succ (env : Env) :
    ∀ (n start : Nat), eventCalls env start (n + 1) =
      eventCalls env start n ++ [Call.nextEvent (env.eventType (start + n))] := by
  intro n
  induction n with
  | zero => intro start; simp [eventCalls]
  | succ n ih =>
    intro start
    rw [eventCalls, ih (start + 1)]
    simp [eventCalls, Nat.add_assoc, Nat.add_comm 1 n]

theorem createdWindows_eventCalls (env : Env) :
    ∀ (n start : Nat), createdWindows (eventCalls env start n) = [] := by
  intro n
  induction n with
  | zero => intro start; simp [eventCalls, createdWindows]
  | succ n ih =>
    intro start
    have h := ih (start + 1)
    simp only [createdWindows] at h
    simp [eventCalls, createdWindows, List.filterMap_cons, h]

theorem destroyedWindows_eventCalls (env : Env) :
    ∀ (n start : Nat), destroyedWindows (eventCalls env start n) = [] := by
  intro n
  induction n with
  | zero => intro start; simp [eventCalls, destroyedWindows]
  | succ n ih =>
    intro start
    have h := ih (start + 1)
    simp only [destroyedWindows] at h
    simp [eventCalls, destroyedWindows, List.filterMap_cons, h]

theorem createdWindows_forkCalls (argv : List String) :
    createdWindows (forkCalls argv) = [] := by
  unfold forkCalls
  split <;> simp [createdWindows]

theorem destroyedWindows_forkCalls (argv : List String) :
    destroyedWindows (forkCalls argv) = [] := by
  unfold forkCalls
  split <;> simp [destroyedWindows]

theorem createdWindows_releaseAllCalls (locks : List (Option Lock)) :
    createdWindows (releaseAllCalls locks) = [] := by
  induction locks with
  | nil => simp [releaseAllCalls, createdWindows]
  | cons l rest ih =>
    cases l with
    | none => simpa [releaseAllCalls] using ih
    | some l =>
      simp only [releaseAllCalls, createdWindows_append, ih]
      simp [createdWindows, releaseCalls]

theorem destroyedWindows_releaseAllCalls (locks : List (Option Lock)) :
    destroyedWindows (releaseAllCalls locks) = guardWindows locks := by
  induction locks with
  | nil => simp [releaseAllCalls, destroyedWindows, guardWindows]
  | cons l rest ih =>
    cases l with
    | none =>
      simp only [releaseAllCalls, ih]
      simp [guardWindows, List.filterMap_cons]
    | some l =>
      simp only [releaseAllCalls, destroyedWindows_append, ih]
      simp [destroyedWindows, releaseCalls, guardWindows, List.filterMap_cons]

theorem unlockedState_calls (env : Env) (argv : List String) (k : Nat) :
    (unlockedState env argv k).calls =
      (acquired env).world.calls ++ [Call.sync] ++ forkCalls argv ++
        eventCalls env 0 (k + 1) := by
  have hc := waitingState_consumed env argv
  simp only [unlockedState, hc]
  simp [waitingState, XSync, World.call]

/-- Windows created and destroyed in the acquisition phase of `main`: every
window is created once; each is either the window of a stored guard, and then
not destroyed, or destroyed exactly once. -/
theorem acquired_windows (env : Env) :
    (createdWindows (acquired env).world.calls).Nodup ∧
    List.Perm (guardWindows (acquired env).locks ++
        destroyedWindows (acquired env).world.calls)
      (createdWindows (acquired env).world.calls) := by
  obtain ⟨delta, hc, _, _, _, hnd, hperm, _⟩ := acquired_inv env
  have h1 : createdWindows (acquired env).world.calls = createdWindows delta := by
    rw [hc, createdWindows_append]
    simp [World.opened, createdWindows]
  have h2 : destroyedWindows (acquired env).world.calls = destroyedWindows delta := by
    rw [hc, destroyedWindows_append]
    simp [World.opened, destroyedWindows]
  rw [h1, h2]
  exact ⟨hnd, hperm⟩

/-- C8: in every complete run of `main` through the lock path (the parent
process, display opened, `locks` allocated, not `-v` or `-h`, `XNextEvent`
returning 0), for any screen count, grab results and events: every guard that
`lockscreen` created (one window each, created once) has had the release
sequence of `unlockscreen` run on it exactly once when the process exits (its
window is destroyed exactly once, and nothing else is destroyed).  A guard whose
acquisition failed is released inside the acquisition phase, in the very call
of `lockscreen` that created it; a guard that was acquired is not released
before the unlock event, which is the last call before the unlock loop, and is
released once in that loop. -/
theorem guards_released_exactly_once (env : Env) (argv : List String)
    (hflag : ¬ UsageOrVersion argv) (hopen : env.displayOpens = true)
    (hmalloc : env.mallocLocks = true) (hparent : ¬ IsChild env argv)
    (hst : ∀ i, env.nextEventStatus i = 0) :
    (∀ dpy screen w, (lockscreen env dpy screen w).1 = none →
      ∃ delta, (lockscreen env dpy screen w).2.calls = w.calls ++ delta ∧
        destroyedWindows delta = createdWindows delta) ∧
    (∀ dpy screen w l, (lockscreen env dpy screen w).1 = some l →
      ∃ delta, (lockscreen env dpy screen w).2.calls = w.calls ++ delta ∧
        createdWindows delta = [l.win] ∧ destroyedWindows delta = []) ∧
    ∀ fuel out wf, main env argv fuel = some (out, wf) →
      (createdWindows wf.calls).Nodup ∧
      createdWindows wf.calls = createdWindows (acquired env).world.calls ∧
      (∀ x ∈ createdWindows wf.calls, (destroyedWindows wf.calls).count x = 1) ∧
      (∀ x ∈ destroyedWindows wf.calls, x ∈ createdWindows wf.calls) ∧
      (∀ x ∈ createdWindows wf.calls, x ∉ guardWindows (acquired env).locks →
        (destroyedWindows (acquired env).world.calls).count x = 1) ∧
      (∀ x ∈ guardWindows (acquired env).locks,
        x ∈ createdWindows wf.calls ∧
        ∃ k, FirstUnlockAt env k ∧
          wf.calls = (unlockedState env argv k).calls ++
            releaseAllCalls (acquired env).locks ++ [Call.closeDisplay] ∧
          (unlockedState env argv k).calls.getLast? =
            some (Call.nextEvent (env.eventType k)) ∧
          x ∉ destroyedWindows (unlockedState env argv k).calls ∧
          (destroyedWindows (releaseAllCalls (acquired env).locks)).count x = 1) := by
  refine ⟨?_, ?_, ?_⟩
  · intro dpy screen w hnone
    obtain ⟨d, hd, _, _, hcase⟩ := lockscreen_effect env dpy screen w
    refine ⟨d, hd, ?_⟩
    rcases hcase with ⟨_, h2, _⟩ | ⟨_, _, h2, h3, _⟩ | ⟨l, h1, _⟩
    · subst h2; rfl
    · rw [h2, h3]
    · rw [hnone] at h1; cases h1
  · intro dpy screen w l hsome
    obtain ⟨d, hd, _, _, hcase⟩ := lockscreen_effect env dpy screen w
    refine ⟨d, hd, ?_⟩
    rcases hcase with ⟨h1, _⟩ | ⟨h1, _⟩ | ⟨l2, h1, hl, _, h2, h3, _⟩
    · rw [hsome] at h1; cases h1
    · rw [hsome] at h1; cases h1
    · rw [hsome] at h1
      have : l = l2 := Option.some.inj h1
      subst this
      exact ⟨by rw [h2, hl], h3⟩
  · intro fuel out wf hmain
    obtain ⟨hnd, hperm⟩ := acquired_windows env
    obtain ⟨delta, _, _, _, _, _, _, hn⟩ := acquired_inv env
    -- the calls of the whole run, in both ways it can end
    have hshape : (createdWindows wf.calls = createdWindows (acquired env).world.calls ∧
        destroyedWindows wf.calls = destroyedWindows (acquired env).world.calls ++
          guardWindows (acquired env).locks) ∧
        (guardWindows (acquired env).locks ≠ [] →
          ∃ k, FirstUnlockAt env k ∧ wf = finalState env argv k) := by
      by_cases hz : (acquired env).nlocks = 0
      · have hg : guardWindows (acquired env).locks = [] := by
          rw [hz] at hn
          exact List.length_eq_zero.1 hn.symm
        rw [main_nothing_locked env argv fuel hflag hopen hmalloc hz] at hmain
        have hw : wf = XCloseDisplay (free (XSync (acquired env).world)) :=
          (congrArg Prod.snd (Option.some.inj hmain)).symm
        refine ⟨?_, fun hne => absurd hg hne⟩
        rw [hw, (nothing_locked_calls env).1, hg, createdWindows_append,
          destroyedWindows_append]
        simp [createdWindows, destroyedWindows]
      · obtain ⟨k, hk, _, _, hw⟩ :=
          main_locked_some env argv hflag hopen hmalloc hz hparent hst fuel out wf hmain
        refine ⟨?_, fun _ => ⟨k, hk, hw⟩⟩
        rw [hw, finalState_calls]
        simp only [createdWindows_append, destroyedWindows_append,
          createdWindows_eventCalls, destroyedWindows_eventCalls, createdWindows_forkCalls,
          destroyedWindows_forkCalls, createdWindows_releaseAllCalls,
          destroyedWindows_releaseAllCalls]
        simp [createdWindows, destroyedWindows]
    obtain ⟨⟨hcr, hde⟩, hguard⟩ := hshape
    have hperm2 : List.Perm (destroyedWindows wf.calls)
        (createdWindows (acquired env).world.calls) := by
      rw [hde]
      exact List.perm_append_comm.trans hperm
    have hcount : ∀ x, (guardWindows (acquired env).locks).count x +
        (destroyedWindows (acquired env).world.calls).count x =
        (createdWindows (acquired env).world.calls).count x := by
      intro x
      rw [← List.count_append]
      exact hperm.count_eq x
    refine ⟨by rw [hcr]; exact hnd, hcr, ?_, ?_, ?_, ?_⟩
    · intro x hx
      rw [hcr] at hx
      rw [hperm2.count_eq x]
      exact List.count_eq_one_of_mem hnd hx
    · intro x hx
      rw [hcr]
      exact hperm2.mem_iff.1 hx
    · intro x hx hng
      rw [hcr] at hx
      have h1 := hcount x
      rw [List.count_eq_one_of_mem hnd hx, List.count_eq_zero_of_not_mem hng] at h1
      omega
    · intro x hx
      have hxc : x ∈ createdWindows (acquired env).world.calls :=
        hperm.mem_iff.1 (List.mem_append_left _ hx)
      have h1 := hcount x
      rw [List.count_eq_one_of_mem hnd hxc] at h1
      have hpos : 1 ≤ (guardWindows (acquired env).locks).count x :=
        List.one_le_count_iff.2 hx
      obtain ⟨k, hk, hw⟩ := hguard (List.ne_nil_of_mem hx)
      refine ⟨by rw [hcr]; exact hxc, k, hk, ?_, ?_, ?_, ?_⟩
      · rw [hw, finalState_calls, unlockedState_calls]
      · rw [unlockedState_calls, eventCalls_succ, ← List.append_assoc, List.getLast?_concat,
          Nat.zero_add]
      · rw [unlockedState_calls]
        simp only [destroyedWindows_append, destroyedWindows_eventCalls,
          destroyedWindows_forkCalls, List.append_nil]
        have hsync : destroyedWindows [Call.sync] = [] := by simp [destroyedWindows]
        rw [hsync, List.append_nil]
        intro hin
        have : 1 ≤ (destroyedWindows (acquired env).world.calls).count x :=
          List.one_le_count_iff.2 hin
        omega
      · rw [destroyedWindows_releaseAllCalls]
        omega

/-- Witness for C8: two screens, every grab succeeds at once, the third event
is a `ButtonPress`; the windows 100 and 103 of the two guards are each
destroyed exactly once in the run. -/
theorem guards_released_exactly_once_witness :
    ¬ UsageOrVersion ["clicklock"] ∧
    ¬ IsChild (sampleEnv 2 grabsAtOnce grabsAtOnce sampleEvents) ["clicklock"] ∧
    main (sampleEnv 2 grabsAtOnce grabsAtOnce sampleEvents) ["clicklock"] 4 =
      some (Outcome.exit 0,
        finalState (sampleEnv 2 grabsAtOnce grabsAtOnce sampleEvents) ["clicklock"] 2) ∧
    (destroyedWindows (finalState (sampleEnv 2 grabsAtOnce grabsAtOnce sampleEvents)
      ["clicklock"] 2).calls).count 100 = 1 ∧
    (destroyedWindows (finalState (sampleEnv 2 grabsAtOnce grabsAtOnce sampleEvents)
      ["clicklock"] 2).calls).count 103 = 1 := by
  have hm : main (sampleEnv 2 grabsAtOnce grabsAtOnce sampleEvents) ["clicklock"] 4 =
      some (Outcome.exit 0,
        finalState (sampleEnv 2 grabsAtOnce grabsAtOnce sampleEvents) ["clicklock"] 2) := by
    rw [main_locked_returns _ _ (by decide) rfl rfl (by decide) (by decide) (fun _ => rfl) 2
      (by decide) 4]
    rfl
  have h := (guards_released_exactly_once (sampleEnv 2 grabsAtOnce grabsAtOnce sampleEvents)
    ["clicklock"] (by decide) rfl rfl (by decide) (fun _ => rfl)).2.2 4 _ _ hm
  have hc : createdWindows (acquired (sampleEnv 2 grabsAtOnce grabsAtOnce
      sampleEvents)).world.calls = [100, 103] := by decide
  refine ⟨by decide, by decide, hm, h.2.2.1 100 ?_, h.2.2.1 103 ?_⟩
  · rw [h.2.1, hc]; decide
  · rw [h.2.1, hc]; decide

/-- Witness for C5, amended: screen 0 of the sample display, every grab
succeeds at once; the guard is acquired, and releasing it drops the pointer
grab and keeps the keyboard grab. -/
theorem lockscreen_guard_states_witness :
    Enters (sampleEnv 1 grabsAtOnce grabsAtOnce sampleEvents) (some ()) 0
      (World.opened (sampleEnv 1 grabsAtOnce grabsAtOnce sampleEvents)) ∧
    (lockscreen (sampleEnv 1 grabsAtOnce grabsAtOnce sampleEvents) (some ()) 0
      (World.opened (sampleEnv 1 grabsAtOnce grabsAtOnce sampleEvents))).2.pointerGrab =
      some 1 ∧
    (unlockscreen (some ())
      (some { screen := 0, root := 1, win := 100, pmap := 101, colors := [0, 1, 2] })
      (lockscreen (sampleEnv 1 grabsAtOnce grabsAtOnce sampleEvents) (some ()) 0
        (World.opened (sampleEnv 1 grabsAtOnce grabsAtOnce sampleEvents))).2).pointerGrab =
      none := by
  have hen : Enters (sampleEnv 1 grabsAtOnce grabsAtOnce sampleEvents) (some ()) 0
      (World.opened (sampleEnv 1 grabsAtOnce grabsAtOnce sampleEvents)) := by decide
  have h := (lockscreen_guard_states _ _ _ _ hen).1
    { screen := 0, root := 1, win := 100, pmap := 101, colors := [0, 1, 2] } (by decide)
  exact ⟨hen, h.1.2.2.2.1, h.2.2.2.2.2.1⟩

/-- The pointer grab is one per client: two screens, screen 0 is acquired, the
keyboard grab of screen 1 is exhausted.  When the acquisition loop is over, the
guard of screen 0 is stored and its window 100 is mapped, the keyboard grab on
its root window 1 is held, but the pointer grab is gone: the rollback of
screen 1 has released it. -/
theorem rollback_drops_pointer_grab_of_other_screen :
    (lockAll (sampleEnv 2 grabsAtOnce (fun s _ => if s = 1 then 1 else 0) sampleEvents)
      (some ()) 2
      (World.opened (sampleEnv 2 grabsAtOnce (fun s _ => if s = 1 then 1 else 0)
        sampleEvents))).locks =
      [some { screen := 0, root := 1, win := 100, pmap := 101, colors := [0, 1, 2] },
        none] ∧
    100 ∈ (lockAll (sampleEnv 2 grabsAtOnce (fun s _ => if s = 1 then 1 else 0) sampleEvents)
      (some ()) 2
      (World.opened (sampleEnv 2 grabsAtOnce (fun s _ => if s = 1 then 1 else 0)
        sampleEvents))).world.mapped ∧
    (lockAll (sampleEnv 2 grabsAtOnce (fun s _ => if s = 1 then 1 else 0) sampleEvents)
      (some ()) 2
      (World.opened (sampleEnv 2 grabsAtOnce (fun s _ => if s = 1 then 1 else 0)
        sampleEvents))).world.keyboardGrab = some 1 ∧
    (lockAll (sampleEnv 2 grabsAtOnce (fun s _ => if s = 1 then 1 else 0) sampleEvents)
      (some ()) 2
      (World.opened (sampleEnv 2 grabsAtOnce (fun s _ => if s = 1 then 1 else 0)
        sampleEvents))).world.pointerGrab = none := by
  have h0 : (lockAll (sampleEnv 2 grabsAtOnce (fun s _ => if s = 1 then 1 else 0)
      sampleEvents) (some ()) 1
      (World.opened (sampleEnv 2 grabsAtOnce (fun s _ => if s = 1 then 1 else 0)
        sampleEvents))).locks =
      [some { screen := 0, root := 1, win := 100, pmap := 101, colors := [0, 1, 2] }] ∧
      (lockAll (sampleEnv 2 grabsAtOnce (fun s _ => if s = 1 then 1 else 0)
      sampleEvents) (some ()) 1
      (World.opened (sampleEnv 2 grabsAtOnce (fun s _ => if s = 1 then 1 else 0)
        sampleEvents))).world.mapped = [100] ∧
      (lockAll (sampleEnv 2 grabsAtOnce (fun s _ => if s = 1 then 1 else 0)
      sampleEvents) (some ()) 1
      (World.opened (sampleEnv 2 grabsAtOnce (fun s _ => if s = 1 then 1 else 0)
        sampleEvents))).world.keyboardGrab = some 1 ∧
      (lockAll (sampleEnv 2 grabsAtOnce (fun s _ => if s = 1 then 1 else 0)
      sampleEvents) (some ()) 1
      (World.opened (sampleEnv 2 grabsAtOnce (fun s _ => if s = 1 then 1 else 0)
        sampleEvents))).world.running = true := by
    decide
  obtain ⟨hl, hm, hk, hr⟩ := h0
  have hen : Enters (sampleEnv 2 grabsAtOnce (fun s _ => if s = 1 then 1 else 0) sampleEvents)
      (some ()) ((1 : Nat) : Int)
      (lockAll (sampleEnv 2 grabsAtOnce (fun s _ => if s = 1 then 1 else 0)
        sampleEvents) (some ()) 1
        (World.opened (sampleEnv 2 grabsAtOnce (fun s _ => if s = 1 then 1 else 0)
          sampleEvents))).world := ⟨hr, rfl, by decide, rfl⟩
  have hex : Exhausted ((sampleEnv 2 grabsAtOnce (fun s _ => if s = 1 then 1 else 0)
      sampleEvents).grabKeyboard ((1 : Nat) : Int)) := by
    intro a _
    simp [sampleEnv, GrabSuccess]
  have hs := lockscreen_keyboard_fail _ _ _ _ 0 hen (by decide) hex
  rw [lockAll_succ]
  simp only [lockStep]
  rw [hs]
  simp [hl, hm, hk]

end Clicklock
